import Mathlib

/-!
Verification development for the `anno-api` church-calendar core
(`src/services/lectionary.js` — computus & church-year generator — and
`src/services/propers.js` — date resolver).

Shallow embedding conventions:
* A calendar date (JS `Date` at midnight UTC) is embedded as its epoch-day
  number: an `Int` counting days since 1970-01-01 UTC.  `makeDate y m d`
  embeds `Date.UTC(y, m-1, d)` through the standard closed-form Gregorian
  day count (months ≤ 2 are counted in the shifted year, matching the
  proleptic Gregorian calendar used by JS `Date`).  `Date.UTC`'s remapping
  of two-digit years (0–99 → 1900–1999) is outside the modelled range.
* Calendar years are `Nat`; on naturals, JS `%`, `Math.floor(x/y)` and the
  subtractions appearing in the Easter algorithm coincide with `Nat`
  arithmetic (no intermediate value is negative — see `easter_sub_safe`).
* JS `Array.prototype.sort` (stable since ES2019) is embedded as
  `List.insertionSort`, which is a stable sort; for a total preorder
  comparator, all stable sorts agree, so this is semantics-preserving.
* The two `while` loops of `generateChurchYear` are embedded with an
  explicit fuel parameter large enough that the loop guard, not the fuel,
  always terminates the recursion (proved in the loop lemmas below).
-/

namespace AnnoApi

/-- Days-before count of the shifted year `y` (years start in March):
`365*y + ⌊y/4⌋ - ⌊y/100⌋ + ⌊y/400⌋`.  `Int./` is floor division for the
positive literal divisors used here. -/
def daysBeforeYear (y : Int) : Int := 365 * y + y / 4 - y / 100 + y / 400

/-- Embedding of `makeDate(year, month, day)` (source: `lectionary.js`,
`Date.UTC` at midnight): the epoch-day number of the given Gregorian
calendar date, with day 0 = 1970-01-01. -/
def makeDate (y m d : Int) : Int :=
  if m ≤ 2 then daysBeforeYear (y - 1) + (153 * (m + 9) + 2) / 5 + d - 1 - 719468
  else daysBeforeYear y + (153 * (m - 3) + 2) / 5 + d - 1 - 719468

/-- Embedding of `addDays(date, days)`. -/
def addDays (date days : Int) : Int := date + days

/-- Embedding of `dayOfWeek(date)` = `date.getUTCDay()`:
0 = Sunday … 6 = Saturday.  Day 0 (1970-01-01) is a Thursday (4). -/
def dayOfWeek (date : Int) : Int := (date + 4) % 7

/-- Embedding of `nearestSunday(date)` (source: `lectionary.js` 154–159). -/
def nearestSunday (date : Int) : Int :=
  if dayOfWeek date = 0 then date
  else if dayOfWeek date ≤ 3 then addDays date (-(dayOfWeek date))
  else addDays date (7 - dayOfWeek date)

/-- Embedding of `sundayOnOrBefore(date)`. -/
def sundayOnOrBefore (date : Int) : Int := addDays date (-(dayOfWeek date))

/-- Embedding of `sundayOnOrAfter(date)`. -/
def sundayOnOrAfter (date : Int) : Int :=
  if dayOfWeek date = 0 then date else addDays date (7 - dayOfWeek date)

/-- Embedding of `weekdayOnOrBefore(date, weekday)`. -/
def weekdayOnOrBefore (date weekday : Int) : Int :=
  addDays date (-((dayOfWeek date - weekday + 7) % 7))

/-- Embedding of `weekdayOnOrAfter(date, weekday)`. -/
def weekdayOnOrAfter (date weekday : Int) : Int :=
  addDays date ((weekday - dayOfWeek date + 7) % 7)

/-- Embedding of `saturdayOnOrBefore(date)`. -/
def saturdayOnOrBefore (date : Int) : Int := weekdayOnOrBefore date 6

/-- Embedding of `easterSunday(year)` (source: `lectionary.js` 107–124),
the anonymous Gregorian (Meeus/Jones/Butcher) computus.  All divisions
and remainders are on naturals, where they agree with the JS operators;
no subtraction underflows (`easter_sub_safe`). -/
def easterSunday (year : Nat) : Int :=
  let a := year % 19
  let b := year / 100
  let c := year % 100
  let d := b / 4
  let e := b % 4
  let f := (b + 8) / 25
  let g := (b - f + 1) / 3
  let h := (19 * a + b - d - g + 15) % 30
  let i := c / 4
  let k := c % 4
  let l := (32 + 2 * e + 2 * i - h - k) % 7
  let m := (a + 11 * h + 22 * l) / 451
  let month := (h + l - 7 * m + 114) / 31
  let day := ((h + l - 7 * m + 114) % 31) + 1
  makeDate year month day

/-- Embedding of `getYearCycle(churchYearStartYear)` (source:
`lectionary.js` 522–524). -/
def getYearCycle (churchYearStartYear : Nat) : Nat :=
  churchYearStartYear % 3 + 1

/-- Embedding of `getChurchYearStart(date)` (source: `lectionary.js`
533–543).  The JS `Date` argument is embedded as the civil triple
`(y, m, d)` of the queried day, so `date.getUTCFullYear()` is `y`;
comparisons are on epoch days.  The `year - 1` return uses `Nat`
subtraction, which agrees with JS for every year ≥ 1. -/
def getChurchYearStart (y : Nat) (m d : Int) : Nat :=
  let advent1ThisYear := nearestSunday (makeDate y 11 30)
  if makeDate y m d < advent1ThisYear then y - 1 else y

/-- 1st Advent Sunday opening church year `Y` (the generator's
`advent1` / the resolver's year boundary). -/
def advent1 (Y : Nat) : Int := nearestSunday (makeDate Y 11 30)

/-- The quantity `h + l - 7*m + 114` of the computus, from which
`easterSunday` derives month (`/31`) and day (`%31 + 1`).  Used only to
organise the proofs about `easterSunday`. -/
def computusX (year : Nat) : Nat :=
  let a := year % 19
  let b := year / 100
  let c := year % 100
  let d := b / 4
  let e := b % 4
  let f := (b + 8) / 25
  let g := (b - f + 1) / 3
  let h := (19 * a + b - d - g + 15) % 30
  let i := c / 4
  let k := c % 4
  let l := (32 + 2 * e + 2 * i - h - k) % 7
  let m := (a + 11 * h + 22 * l) / 451
  h + l - 7 * m + 114

-- ─── Calendar entries ────────────────────────────────────────────────

/-- The `type` field of a calendar entry.  `generateChurchYear` only ever
produces these five strings. -/
inductive EntryType where
  | sunday
  | feast
  | special
  | weekday
  | service
deriving DecidableEq

/-- Embedding of a calendar entry `{date, slug, name, type, dateStr}`.
`dateStr` is the `YYYY-MM-DD` rendering of `date` — a derived field,
injective in `date`, so date-string comparisons are embedded as epoch-day
equalities and the field itself is dropped. -/
structure Entry where
  date : Int
  slug : String
  name : String
  type : EntryType
deriving DecidableEq

instance : Inhabited Entry := ⟨⟨0, "", "", .sunday⟩⟩

/-- Embedding of `addWeekdays(entries, sunday, slug, name)` (source:
`lectionary.js` 485–496): the six Mon–Sat entries pushed after `sunday`. -/
def addWeekdays (sunday : Int) (slug name : String) : List Entry :=
  (List.range 6).map fun (d : Nat) => ⟨addDays sunday ((d : Int) + 1), slug, name, .weekday⟩

/-- Embedding of `sundayAfterInRange(after, rangeStart, rangeEnd)`
(source: `lectionary.js` 501–507). -/
def sundayAfterInRange (after rangeStart rangeEnd : Int) : Option Int :=
  let candidate := sundayOnOrAfter (addDays after 1)
  if rangeStart ≤ candidate ∧ candidate ≤ rangeEnd then some candidate else none

/-- The conditional `add` guarded by an optional date (`if (sun) add(...)`). -/
def optEntry (o : Option Int) (slug name : String) (t : EntryType) : List Entry :=
  match o with
  | some date => [⟨date, slug, name, t⟩]
  | none => []

/-- Embedding of the Sundays-after-Epiphany `while` loop (source:
`lectionary.js` 300–306).  The `epiphanyCount ≤ 6` guard bounds the loop
by 6 iterations, so fuel 7 never cuts it short (`epiphanySundayLoop_ext`). -/
def epiphanySundayLoop : Nat → Int → Int → Nat → List Entry
  | 0, _, _, _ => []
  | fuel + 1, epiphanySunday, septuagesima, epiphanyCount =>
    if epiphanySunday < septuagesima ∧ epiphanyCount ≤ 6 then
      ⟨epiphanySunday, s!"{epiphanyCount}-sunnuntai-loppiaisesta",
        s!"{epiphanyCount}. sunnuntai loppiaisesta", .sunday⟩
        :: epiphanySundayLoop fuel (addDays epiphanySunday 7) septuagesima (epiphanyCount + 1)
    else []

/-- Embedding of the Sundays-after-Pentecost collection `while` loop
(source: `lectionary.js` 381–389), producing `{date, number}` pairs.  The
loop advances 7 days per step from Pentecost+14 (never before late May)
to at most next Advent − 7 (early December), hence runs < 30 iterations;
fuel 60 never cuts it short (`pentecostSundayLoop_adequate`). -/
def pentecostSundayLoop : Nat → Int → Int → Nat → List (Int × Nat)
  | 0, _, _, _ => []
  | fuel + 1, currentSunday, tuomiosunnuntai, sundayNumber =>
    if currentSunday ≤ tuomiosunnuntai then
      (currentSunday, sundayNumber)
        :: pentecostSundayLoop fuel (addDays currentSunday 7) tuomiosunnuntai (sundayNumber + 1)
    else []

/-- Embedding of the body of the Sundays-after-Pentecost labelling loop
(source: `lectionary.js` 403–426): the entry added for the slot at `date`
with running index `fromStart` (= `i + 2`) and reverse index `fromEnd`
(= `length − i`; 1 = last). -/
def pentecostSundayEntry (date : Int) (fromStart fromEnd : Nat) : Entry :=
  if fromEnd = 1 then ⟨date, "tuomiosunnuntai", "Tuomiosunnuntai", .sunday⟩
  else if fromEnd = 2 then ⟨date, "valvomisen-sunnuntai", "Valvomisen sunnuntai", .sunday⟩
  else if fromStart = 6 then ⟨date, "apostolien-paiva", "Apostolien päivä", .sunday⟩
  else if fromStart = 8 then ⟨date, "kirkastussunnuntai", "Kirkastussunnuntai", .sunday⟩
  else if fromStart = 22 then ⟨date, "reformaation-paiva", "Reformaation päivä", .sunday⟩
  else ⟨date, s!"{fromStart}-sunnuntai-helluntaista", s!"{fromStart}. sunnuntai helluntaista", .sunday⟩

/-- The labelling loop over the collected `pentecostSundays` pairs. -/
def pentecostSundayEntries (ps : List (Int × Nat)) : List Entry :=
  ps.enum.map fun ip => pentecostSundayEntry ip.2.1 (ip.1 + 2) (ps.length - ip.1)

/-- The Sundays-after-Epiphany section of `generateChurchYear`
(source: `lectionary.js` 294–306). -/
def epiphanyBlock (startYear : Nat) : List Entry :=
  epiphanySundayLoop 7 (sundayOnOrAfter (addDays (makeDate (startYear + 1) 1 6) 1))
    (addDays (easterSunday (startYear + 1)) (-63)) 1

/-- The Sundays-after-Pentecost section of `generateChurchYear`
(source: `lectionary.js` 371–426). -/
def pentecostBlock (startYear : Nat) : List Entry :=
  let pentecost := addDays (easterSunday (startYear + 1)) 49
  let nextAdvent1 := nearestSunday (makeDate (startYear + 1) 11 30)
  pentecostSundayEntries
    (pentecostSundayLoop 60 (addDays pentecost 14) (addDays nextAdvent1 (-7)) 2)

/-- The entry list built by `generateChurchYear(startYear)` in generation
(push) order, before the final sort (source: `lectionary.js` 242–476). -/
def rawChurchYear (startYear : Nat) : List Entry :=
  let easter := easterSunday (startYear + 1)
  let adv1 := nearestSunday (makeDate startYear 11 30)
  let christmas := makeDate startYear 12 25
  let pentecost := addDays easter 49
  [⟨adv1, "1-adventtisunnuntai", "1. adventtisunnuntai", .sunday⟩]
  ++ addWeekdays adv1 "1-adventtisunnuntain-jalkeinen-viikko" "1. adventtisunnuntain jälkeinen viikko"
  ++ [⟨addDays adv1 7, "2-adventtisunnuntai", "2. adventtisunnuntai", .sunday⟩,
      ⟨addDays adv1 14, "3-adventtisunnuntai", "3. adventtisunnuntai", .sunday⟩,
      ⟨addDays adv1 21, "4-adventtisunnuntai", "4. adventtisunnuntai", .sunday⟩,
      ⟨makeDate startYear 12 24, "jouluaatto", "Jouluaatto", .feast⟩,
      ⟨christmas, "joulupaiva", "Joulupäivä", .feast⟩,
      ⟨makeDate startYear 12 26, "tapaninpaiva", "Tapaninpäivä", .feast⟩,
      ⟨makeDate startYear 12 27, "apostoli-johanneksen-paiva", "Apostoli Johanneksen päivä", .feast⟩,
      ⟨makeDate startYear 12 28, "viattomien-lasten-paiva", "Viattomien lasten päivä", .feast⟩]
  ++ optEntry (sundayAfterInRange christmas (makeDate startYear 12 27) (makeDate (startYear + 1) 1 2))
      "1-sunnuntai-joulusta" "1. sunnuntai joulusta" .sunday
  ++ [⟨makeDate startYear 12 31, "uudenvuodenaatto", "Uudenvuodenaatto", .feast⟩,
      ⟨makeDate (startYear + 1) 1 1, "uudenvuodenpaiva", "Uudenvuodenpäivä", .feast⟩]
  ++ optEntry (sundayAfterInRange (makeDate (startYear + 1) 1 1) (makeDate (startYear + 1) 1 2)
        (makeDate (startYear + 1) 1 5))
      "2-sunnuntai-joulusta" "2. sunnuntai joulusta" .sunday
  ++ [⟨makeDate (startYear + 1) 1 6, "loppiainen", "Loppiainen", .feast⟩]
  ++ epiphanyBlock startYear
  ++ [⟨addDays easter (-63), "3-sunnuntai-ennen-paastonaikaa", "3. sunnuntai ennen paastonaikaa", .sunday⟩,
      ⟨addDays easter (-56), "2-sunnuntai-ennen-paastonaikaa", "2. sunnuntai ennen paastonaikaa", .sunday⟩,
      ⟨addDays easter (-49), "laskiaissunnuntai", "Laskiaissunnuntai", .sunday⟩,
      ⟨addDays easter (-46), "tuhkakeskiviikko", "Tuhkakeskiviikko", .weekday⟩]
  ++ (List.range 5).map (fun (i : Nat) =>
      ⟨addDays easter (-49 + 7 * ((i : Int) + 1)), s!"{i + 1}-paastonajan-sunnuntai",
        s!"{i + 1}. paastonajan sunnuntai", .sunday⟩)
  ++ [⟨addDays easter (-7), "palmusunnuntai", "Palmusunnuntai", .sunday⟩,
      ⟨addDays easter (-6), "hiljaisen-viikon-maanantai", "Hiljaisen viikon maanantai", .weekday⟩,
      ⟨addDays easter (-5), "hiljaisen-viikon-tiistai", "Hiljaisen viikon tiistai", .weekday⟩,
      ⟨addDays easter (-4), "hiljaisen-viikon-keskiviikko", "Hiljaisen viikon keskiviikko", .weekday⟩,
      ⟨addDays easter (-3), "kiirastorstai", "Kiirastorstai", .feast⟩,
      ⟨addDays easter (-2), "pitkaperjantai", "Pitkäperjantai", .feast⟩,
      ⟨addDays easter (-2), "jeesuksen-kuolinhetki", "Jeesuksen kuolinhetki", .service⟩,
      ⟨addDays easter (-2), "pitkaperjantain-ilta", "Pitkäperjantain ilta", .service⟩,
      ⟨addDays easter (-1), "hiljainen-lauantai", "Hiljainen lauantai", .weekday⟩,
      ⟨addDays easter (-1), "paasiaisyo", "Pääsiäisyö", .service⟩,
      ⟨easter, "paasiaispaiva", "Pääsiäispäivä", .feast⟩,
      ⟨addDays easter 1, "2-paasiaispaiva", "2. pääsiäispäivä", .feast⟩,
      ⟨addDays easter 2, "paasiaisen-jalkeinen-tiistai", "Pääsiäisen jälkeinen tiistai", .weekday⟩,
      ⟨addDays easter 3, "paasiaisen-jalkeinen-keskiviikko", "Pääsiäisen jälkeinen keskiviikko", .weekday⟩,
      ⟨addDays easter 4, "paasiaisen-jalkeinen-torstai", "Pääsiäisen jälkeinen torstai", .weekday⟩,
      ⟨addDays easter 5, "paasiaisen-jalkeinen-perjantai", "Pääsiäisen jälkeinen perjantai", .weekday⟩,
      ⟨addDays easter 6, "paasiaisen-jalkeinen-lauantai", "Pääsiäisen jälkeinen lauantai", .weekday⟩]
  ++ (List.range 6).map (fun (i : Nat) =>
      ⟨addDays easter (((i : Int) + 1) * 7), s!"{i + 1}-sunnuntai-paasiaisesta",
        s!"{i + 1}. sunnuntai pääsiäisestä", .sunday⟩)
  ++ [⟨addDays easter 39, "helatorstai", "Helatorstai", .feast⟩,
      ⟨addDays pentecost (-1), "helluntaiaatto", "Helluntaiaatto", .service⟩,
      ⟨pentecost, "helluntaipaiva", "Helluntaipäivä", .feast⟩]
  ++ addWeekdays pentecost "helluntain-jalkeinen-viikko-eli-helluntaiviikko" "Helluntain jälkeinen viikko"
  ++ [⟨addDays pentecost 7, "pyhan-kolminaisuuden-paiva", "Pyhän Kolminaisuuden päivä", .sunday⟩]
  ++ pentecostBlock startYear
  ++ [⟨makeDate (startYear + 1) 2 2, "kynttilanpaiva", "Kynttilänpäivä", .special⟩]
  ++ (if makeDate (startYear + 1) 3 25 < addDays easter (-6) ∨ addDays easter 7 < makeDate (startYear + 1) 3 25
      then [⟨makeDate (startYear + 1) 3 25, "marian-ilmestyspaiva", "Marian ilmestyspäivä", .special⟩]
      else [])
  ++ (if makeDate (startYear + 1) 6 20 ≤ saturdayOnOrBefore (makeDate (startYear + 1) 6 26)
      then [⟨saturdayOnOrBefore (makeDate (startYear + 1) 6 26), "juhannuspaiva", "Juhannuspäivä", .special⟩]
      else [])
  ++ (if sundayOnOrAfter (makeDate (startYear + 1) 9 29) ≤ makeDate (startYear + 1) 10 5
      then [⟨sundayOnOrAfter (makeDate (startYear + 1) 9 29), "mikkelinpaiva", "Mikkelinpäivä", .special⟩]
      else [])
  ++ (if makeDate (startYear + 1) 10 31 ≤ saturdayOnOrBefore (makeDate (startYear + 1) 11 6)
      then [⟨saturdayOnOrBefore (makeDate (startYear + 1) 11 6), "pyhainpaiva", "Pyhäinpäivä", .special⟩]
      else [])
  ++ [⟨makeDate (startYear + 1) 1 19, "pyhan-henrikin-muistopaiva", "Pyhän Henrikin muistopäivä", .special⟩,
      ⟨makeDate (startYear + 1) 12 6, "itsenaisyyspaiva", "Itsenäisyyspäivä", .special⟩,
      ⟨makeDate (startYear + 1) 1 18, "kansalliset-rukouspaivat", "Kristittyjen ykseyden rukouspäivä", .special⟩,
      ⟨makeDate (startYear + 1) 10 24, "kansalliset-rukouspaivat",
        "Rauhan, ihmisoikeuksien ja kansainvälisen vastuun rukouspäivä", .special⟩]

/-- The comparator of the generator's final `entries.sort((a, b) => a.date - b.date)`. -/
def byDate (a b : Entry) : Prop := a.date ≤ b.date

instance : DecidableRel byDate := fun a b => Int.decLe a.date b.date

/-- Embedding of `generateChurchYear(startYear)`: the raw entry list
followed by the final stable sort by date (JS `Array.prototype.sort`
is stable; `List.insertionSort` is the stable sort). -/
def generateChurchYear (startYear : Nat) : List Entry :=
  List.insertionSort byDate (rawChurchYear startYear)

-- ─── Date resolver (propers.js, resolver part) ───────────────────────

/-- The `priority` table of `prioritizeEntries` (source: `propers.js` 470).
The `|| 9` fallback of the source is unreachable: every generated entry
carries one of the five types. -/
def priorityOf : EntryType → Nat
  | .feast => 1
  | .special => 2
  | .sunday => 3
  | .weekday => 4
  | .service => 5

/-- The comparator of `prioritizeEntries`' sort. -/
def byPriority (a b : Entry) : Prop := priorityOf a.type ≤ priorityOf b.type

instance : DecidableRel byPriority := fun a b => Nat.decLe (priorityOf a.type) (priorityOf b.type)

/-- Embedding of `prioritizeEntries(entries)` (source: `propers.js`
469–474): stable sort by type priority. -/
def prioritizeEntries (entries : List Entry) : List Entry :=
  List.insertionSort byPriority entries

/-- One iteration of the `findPrecedingSunday` scan (source: `propers.js`
481–487): keep the latest sunday/feast entry dated on or before `date`,
first-encountered winning ties (`entry.date > best.date` is strict). -/
def precStep (date : Int) (best : Option Entry) (entry : Entry) : Option Entry :=
  if (entry.type = .sunday ∨ entry.type = .feast) ∧ entry.date ≤ date then
    match best with
    | none => some entry
    | some b => if b.date < entry.date then some entry else best
  else best

/-- Embedding of `findPrecedingSunday(calendar, date)` (source:
`propers.js` 479–489). -/
def findPrecedingSunday (calendar : List Entry) (date : Int) : Option Entry :=
  calendar.foldl (precStep date) none

/-- An enriched entry as returned by `enrichEntry` (source: `propers.js`
401–463).  The enrichment fields read from the reference-data files
(liturgical colour, description, texts, propers, …) live outside the
calendar core and play no role in the verified claims; the embedding
keeps the identity fields that `enrichEntry` copies verbatim from the
calendar entry. -/
structure EnrichedEntry where
  name : String
  slug : String
  date : Int
  type : EntryType
deriving DecidableEq

def enrichEntry (entry : Entry) : EnrichedEntry :=
  ⟨entry.name, entry.slug, entry.date, entry.type⟩

/-- `s.includes(sub)` on the underlying character lists. -/
def containsSub (hay needle : List Char) : Bool :=
  match hay with
  | [] => needle.isEmpty
  | _ :: t => needle.isPrefixOf hay || containsSub t needle

def strIncludes (s sub : String) : Bool := containsSub s.toList sub.toList

/-- Embedding of `getSeason(entry)` (source: `propers.js` 494–512).  The
`data?.season` lookup reads the reference-data file, which is absent from
the calendar core; a miss there falls through to the slug inference below,
which is what is embedded.  No claim constrains the season value. -/
def getSeason (entry : Entry) : Option String :=
  let slug := entry.slug
  if strIncludes slug "adventti" || strIncludes slug "advent" then some "Joulujakso"
  else if strIncludes slug "joulu" || strIncludes slug "christmas" then some "Joulujakso"
  else if strIncludes slug "loppiai" then some "Joulujakso"
  else if strIncludes slug "paasto" || strIncludes slug "laskiai" then some "Pääsiäisjakso"
  else if strIncludes slug "hiljai" || strIncludes slug "kiiras" || strIncludes slug "pitkap"
      || strIncludes slug "palmu" then some "Pääsiäisjakso"
  else if strIncludes slug "paasiai" then some "Pääsiäisjakso"
  else if strIncludes slug "helluntai" || strIncludes slug "kolminai"
      || strIncludes slug "helatorstai" then some "Helluntaijakso"
  else if strIncludes slug "shel" || strIncludes slug "helluntaista" then some "Helluntaijakso"
  else none

/-- Embedding of `getDayOfWeekFi(date)` (source: `propers.js` 517–520). -/
def getDayOfWeekFi (date : Int) : String :=
  ["sunnuntai", "maanantai", "tiistai", "keskiviikko", "torstai", "perjantai",
    "lauantai"].getD (dayOfWeek date).toNat ""

/-- The `churchYear` header object of a `ResolvedDay`. -/
structure ChurchYearInfo where
  start : Nat
  label : String
  yearCycle : Nat
deriving DecidableEq

/-- Embedding of the object returned by `resolveDate` (source:
`propers.js` 344–396).  JS objects may omit fields, so the two fields
that appear in only one branch are wrapped in an outer `Option`:
`none` = the field is absent from the returned object;
for `precedingSunday`, `some none` = the field is present with value
`null`. -/
structure ResolvedDay where
  date : Int
  churchYear : ChurchYearInfo
  holyDay : Option EnrichedEntry
  precedingSunday : Option (Option EnrichedEntry)
  additionalServices : Option (List EnrichedEntry)
  dayOfWeek : String
  season : Option String
deriving DecidableEq

/-- Embedding of `resolveDate(date)` (source: `propers.js` 344–396).  The
input date is the civil triple `(y, m, d)` parsed from the `YYYY-MM-DD`
string; entry matching (`e.dateStr === dateStr` in the source) is
epoch-day equality, date-string formatting being injective. -/
def resolveDate (y : Nat) (m d : Int) : ResolvedDay :=
  let date := makeDate y m d
  let churchYearStart := getChurchYearStart y m d
  let yearCycle := getYearCycle churchYearStart
  let calendar := generateChurchYear churchYearStart
  let matchList := calendar.filter (fun e => decide (e.date = date))
  let info : ChurchYearInfo := ⟨churchYearStart, s!"{churchYearStart}–{churchYearStart + 1}", yearCycle⟩
  if matchList.isEmpty then
    let precedingSunday := findPrecedingSunday calendar date
    { date := date
      churchYear := info
      holyDay := none
      precedingSunday := some (precedingSunday.map enrichEntry)
      additionalServices := none
      dayOfWeek := getDayOfWeekFi date
      season := match precedingSunday with | some p => getSeason p | none => none }
  else
    let prioritized := prioritizeEntries matchList
    let primary := prioritized.headI
    { date := date
      churchYear := info
      holyDay := some (enrichEntry primary)
      precedingSunday := none
      additionalServices := some (prioritized.tail.map enrichEntry)
      dayOfWeek := getDayOfWeekFi date
      season := getSeason primary }

/-- The entries of the governing church-year calendar that fall on the
given day, in generation order (the same list, in the same order, that
`resolveDate`'s `matches` filter produces — see `matchList_eq_matchesOn`). -/
def matchesOn (y : Nat) (m d : Int) : List Entry :=
  (rawChurchYear (getChurchYearStart y m d)).filter
    (fun e => decide (e.date = makeDate y m d))

/-- The six possible Sunday-after-Epiphany slugs, used to state the
calendar-wide count of claim C6. -/
def epiphanySundaySlugs : List String :=
  ["1-sunnuntai-loppiaisesta", "2-sunnuntai-loppiaisesta", "3-sunnuntai-loppiaisesta",
   "4-sunnuntai-loppiaisesta", "5-sunnuntai-loppiaisesta", "6-sunnuntai-loppiaisesta"]

-- ─── Computus lemmas ─────────────────────────────────────────────────

/-- `easterSunday` in terms of `computusX`: month/day recombine to
`computusX − 93` days past the shifted new year. -/
theorem easterSunday_eq (y : Nat) :
    easterSunday y = daysBeforeYear y + (computusX y : Int) - 93 - 719468 := by
  simp only [easterSunday, computusX, makeDate, daysBeforeYear]
  split_ifs with hif
  · push_cast at hif ⊢; omega
  · push_cast; omega

theorem computusX_mod7 (y : Nat) :
    computusX y % 7 = (2 * (y / 100 % 4) + 2 * (y % 100 / 4) + 6 * (y % 100 % 4) + 6) % 7 := by
  simp only [computusX]
  omega

/-- No subtraction in `easterSunday` underflows, so the `Nat` embedding
agrees with the JS arithmetic: witnessed by the bounds that each
subtrahend stays below its minuend. -/
theorem easter_sub_safe (y : Nat) :
    let b := y / 100
    let f := (b + 8) / 25
    (f ≤ b) ∧ (b / 4 + (b - f + 1) / 3 ≤ 19 * (y % 19) + b)
      ∧ ((19 * (y % 19) + b - b / 4 - (b - f + 1) / 3 + 15) % 30 + y % 100 % 4
          ≤ 32 + 2 * (b % 4) + 2 * (y % 100 / 4)) := by
  dsimp only
  omega

/-- Easter Sunday falls on weekday 0 (Sunday). -/
theorem easter_dow (y : Nat) : dayOfWeek (easterSunday y) = 0 := by
  have hX := computusX_mod7 y
  have h1 : y / 400 = y / 100 / 4 := by omega
  have h2 : y / 4 = 25 * (y / 100) + y % 100 / 4 := by omega
  rw [dayOfWeek, easterSunday_eq, daysBeforeYear]
  omega

/-- Easter Sunday is never before March 22. -/
theorem easter_lb (y : Nat) : makeDate y 3 22 ≤ easterSunday y := by
  simp only [easterSunday, makeDate, daysBeforeYear]
  push_cast
  omega

/-- Easter Sunday is never after April 25. -/
theorem easter_ub (y : Nat) : easterSunday y ≤ makeDate y 4 25 := by
  simp only [easterSunday, makeDate, daysBeforeYear]
  push_cast
  omega

-- ─── Advent-Sunday lemmas ────────────────────────────────────────────

theorem advent1_dow (Y : Nat) : dayOfWeek (advent1 Y) = 0 := by
  simp only [advent1, nearestSunday, dayOfWeek, addDays]
  split_ifs <;> omega

theorem advent1_lb (Y : Nat) : makeDate Y 11 27 ≤ advent1 Y := by
  simp only [advent1, nearestSunday, dayOfWeek, addDays, makeDate, daysBeforeYear]
  split_ifs <;> omega

theorem advent1_ub (Y : Nat) : advent1 Y ≤ makeDate Y 12 3 := by
  simp only [advent1, nearestSunday, dayOfWeek, addDays, makeDate, daysBeforeYear]
  split_ifs <;> omega

/-- Dec 3 of an earlier year precedes Nov 27 of a later year. -/
theorem makeDate_dec3_lt_nov27 {y1 y2 : Int} (h : y1 < y2) :
    makeDate y1 12 3 < makeDate y2 11 27 := by
  simp only [makeDate, daysBeforeYear]
  norm_num
  omega

theorem advent1_strictMono {a b : Nat} (h : a < b) : advent1 a < advent1 b :=
  lt_of_le_of_lt (advent1_ub a)
    (lt_of_lt_of_le (makeDate_dec3_lt_nov27 (by exact_mod_cast h)) (advent1_lb b))

/-- Any valid civil date of year `y` lies between Jan 1 and Dec 31 of `y`. -/
theorem makeDate_year_range {y m d : Int} (hm1 : 1 ≤ m) (hm2 : m ≤ 12)
    (hd1 : 1 ≤ d) (hd2 : d ≤ 31) :
    makeDate y 1 1 ≤ makeDate y m d ∧ makeDate y m d ≤ makeDate y 12 31 := by
  simp only [makeDate, daysBeforeYear]
  split_ifs <;> norm_num <;> omega

theorem makeDate_dec31_lt_jan1 (y : Int) : makeDate y 12 31 < makeDate (y + 1) 1 1 := by
  simp only [makeDate, daysBeforeYear]
  norm_num
  omega

theorem makeDate_dec3_lt_jan1 (y : Int) : makeDate y 12 3 < makeDate (y + 1) 1 1 := by
  simp only [makeDate, daysBeforeYear]
  norm_num
  omega

theorem makeDate_dec31_lt_nov27 (y : Int) : makeDate y 12 31 < makeDate (y + 1) 11 27 := by
  simp only [makeDate, daysBeforeYear]
  norm_num
  omega

theorem getChurchYearStart_eq (y : Nat) (m d : Int) :
    getChurchYearStart y m d = if makeDate y m d < advent1 y then y - 1 else y := rfl

-- ─── Stable-sort machinery ───────────────────────────────────────────

/-- Filtering by a predicate closed downward under the sort order
commutes with `orderedInsert`: elements skipped over by the insertion
are strictly below the inserted one, hence fail the predicate. -/
theorem filter_orderedInsert {α : Type} (r : α → α → Prop) [DecidableRel r] (p : α → Bool)
    (a : α) (s : List α) (hcomp : ∀ b, p a = true → ¬ r a b → p b = false) :
    (s.orderedInsert r a).filter p = if p a then a :: s.filter p else s.filter p := by
  induction s with
  | nil => simp [List.orderedInsert, List.filter_cons]
  | cons b t ih =>
    rw [List.orderedInsert]
    by_cases hr : r a b
    · rw [if_pos hr]
      by_cases hpa : p a <;> simp [List.filter_cons, hpa]
    · rw [if_neg hr]
      by_cases hpa : p a
      · have hpb : p b = false := hcomp b hpa hr
        simp [List.filter_cons, hpb, ih, hpa]
      · simp [List.filter_cons, ih, hpa]

/-- Stability of insertion sort, in filter form: filtering by a predicate
whose fibre is an antichain-closed set (elements below a satisfying
element never satisfy it) is unchanged by sorting. -/
theorem filter_insertionSort {α : Type} (r : α → α → Prop) [DecidableRel r] (p : α → Bool)
    (l : List α) (hcomp : ∀ a b, p a = true → ¬ r a b → p b = false) :
    (List.insertionSort r l).filter p = l.filter p := by
  induction l with
  | nil => rfl
  | cons a t ih =>
    rw [List.insertionSort, filter_orderedInsert r p a _ (hcomp a), ih, List.filter_cons]

/-- Membership in the sorted calendar is membership in the raw list. -/
theorem mem_generateChurchYear_iff {x : Entry} {Y : Nat} :
    x ∈ generateChurchYear Y ↔ x ∈ rawChurchYear Y :=
  (List.perm_insertionSort byDate (rawChurchYear Y)).mem_iff

/-- The date-sort of the generator is stable, so the entries on one date
appear in the sorted calendar exactly as generated (same entries, same
order): `resolveDate`'s `matches` list is the generation-order list. -/
theorem filter_generateChurchYear (Y : Nat) (D : Int) :
    (generateChurchYear Y).filter (fun e => decide (e.date = D)) =
      (rawChurchYear Y).filter (fun e => decide (e.date = D)) := by
  apply filter_insertionSort
  intro a b hpa hr
  simp only [byDate, not_le] at hr
  simp only [decide_eq_true_eq] at hpa
  simp only [decide_eq_false_iff_not]
  omega

/-- The priority sort of `prioritizeEntries` is stable: within one
priority class the sorted list keeps the input (generation) order. -/
theorem filter_prioritizeEntries (ms : List Entry) (q : Nat) :
    (prioritizeEntries ms).filter (fun e => decide (priorityOf e.type = q)) =
      ms.filter (fun e => decide (priorityOf e.type = q)) := by
  apply filter_insertionSort
  intro a b hpa hr
  simp only [byPriority, not_le] at hr
  simp only [decide_eq_true_eq] at hpa
  simp only [decide_eq_false_iff_not]
  omega

instance : IsTotal Entry byPriority := ⟨fun _ _ => Nat.le_total _ _⟩

instance : IsTrans Entry byPriority := ⟨fun _ _ _ => Nat.le_trans⟩

instance : IsTotal Entry byDate := ⟨fun _ _ => Int.le_total _ _⟩

instance : IsTrans Entry byDate := ⟨fun _ _ _ => Int.le_trans⟩

-- ─── findPrecedingSunday lemmas ──────────────────────────────────────

theorem precStep_some (date : Int) (b : Entry) (e : Entry) :
    ∃ c, precStep date (some b) e = some c := by
  unfold precStep
  by_cases h : (e.type = .sunday ∨ e.type = .feast) ∧ e.date ≤ date
  · rw [if_pos h]
    by_cases h2 : b.date < e.date
    · exact ⟨e, by simp [h2]⟩
    · exact ⟨b, by simp [h2]⟩
  · rw [if_neg h]
    exact ⟨b, rfl⟩

theorem foldl_precStep_isSome (date : Int) (t : List Entry) :
    ∀ (init : Option Entry),
      (init.isSome ∨ ∃ e ∈ t, (e.type = .sunday ∨ e.type = .feast) ∧ e.date ≤ date) →
      (t.foldl (precStep date) init).isSome := by
  induction t with
  | nil =>
    intro init h
    rcases h with h | ⟨e, he, _⟩
    · simpa using h
    · cases he
  | cons a t ih =>
    intro init h
    rw [List.foldl_cons]
    apply ih
    rcases h with h | ⟨e, he, hcond⟩
    · left
      match init, h with
      | some b, _ =>
        obtain ⟨c, hc⟩ := precStep_some date b a
        simp [hc]
    · rcases List.mem_cons.mp he with rfl | hmem
      · left
        match init with
        | none => simp [precStep, hcond]
        | some b =>
          obtain ⟨c, hc⟩ := precStep_some date b e
          simp [hc]
      · right
        exact ⟨e, hmem, hcond⟩

/-- If some sunday/feast entry of the calendar precedes the date, the
`findPrecedingSunday` scan cannot return `null`. -/
theorem findPrecedingSunday_isSome {calendar : List Entry} {date : Int} {e : Entry}
    (he : e ∈ calendar) (h1 : e.type = .sunday ∨ e.type = .feast) (h2 : e.date ≤ date) :
    ∃ c, findPrecedingSunday calendar date = some c := by
  have := foldl_precStep_isSome date calendar none (Or.inr ⟨e, he, h1, h2⟩)
  unfold findPrecedingSunday
  exact Option.isSome_iff_exists.mp this

-- ─── Generator loop lemmas ───────────────────────────────────────────

theorem epiphanySundayLoop_succ (f : Nat) (s sept : Int) (c : Nat) :
    epiphanySundayLoop (f + 1) s sept c =
      if s < sept ∧ c ≤ 6 then
        (⟨s, s!"{c}-sunnuntai-loppiaisesta", s!"{c}. sunnuntai loppiaisesta", .sunday⟩ : Entry)
          :: epiphanySundayLoop f (addDays s 7) sept (c + 1)
      else [] := rfl

theorem pentecostSundayLoop_succ (f : Nat) (cur t : Int) (num : Nat) :
    pentecostSundayLoop (f + 1) cur t num =
      if cur ≤ t then
        (cur, num) :: pentecostSundayLoop f (addDays cur 7) t (num + 1)
      else [] := rfl

/-- The `epiphanyCount ≤ 6` guard caps the loop at `7 - c` entries. -/
theorem epiphanySundayLoop_length_le (fuel : Nat) :
    ∀ (s sept : Int) (c : Nat), (epiphanySundayLoop fuel s sept c).length ≤ 7 - c := by
  induction fuel with
  | zero => intro s sept c; simp [epiphanySundayLoop]
  | succ f ih =>
    intro s sept c
    rw [epiphanySundayLoop_succ]
    by_cases h : s < sept ∧ c ≤ 6
    · rw [if_pos h]
      have := ih (addDays s 7) sept (c + 1)
      simp only [List.length_cons]
      omega
    · rw [if_neg h]
      simp

theorem epiphanySundayLoop_length_pos (fuel : Nat) (s sept : Int) (c : Nat)
    (hf : 1 ≤ fuel) (hs : s < sept) (hc : c ≤ 6) :
    1 ≤ (epiphanySundayLoop fuel s sept c).length := by
  match fuel, hf with
  | f + 1, _ =>
    rw [epiphanySundayLoop_succ, if_pos ⟨hs, hc⟩]
    simp

/-- Every generated Sunday-after-Epiphany is strictly before the loop
bound (Easter − 63). -/
theorem epiphanySundayLoop_date_lt (fuel : Nat) :
    ∀ (s sept : Int) (c : Nat) (e : Entry), e ∈ epiphanySundayLoop fuel s sept c →
      e.date < sept := by
  induction fuel with
  | zero => intro s sept c e he; simp [epiphanySundayLoop] at he
  | succ f ih =>
    intro s sept c e he
    rw [epiphanySundayLoop_succ] at he
    by_cases h : s < sept ∧ c ≤ 6
    · rw [if_pos h] at he
      rcases List.mem_cons.mp he with rfl | hm
      · exact h.1
      · exact ih _ _ _ _ hm
    · rw [if_neg h] at he
      simp at he

/-- The `i`-th generated Sunday-after-Epiphany: weekly steps from the
start date, numbered consecutively from the starting count. -/
theorem epiphanySundayLoop_get (fuel : Nat) :
    ∀ (s sept : Int) (c : Nat) (i : Nat), i < (epiphanySundayLoop fuel s sept c).length →
      (epiphanySundayLoop fuel s sept c).get? i =
        some ⟨s + 7 * i, s!"{c + i}-sunnuntai-loppiaisesta",
          s!"{c + i}. sunnuntai loppiaisesta", .sunday⟩ := by
  induction fuel with
  | zero => intro s sept c i hi; simp [epiphanySundayLoop] at hi
  | succ f ih =>
    intro s sept c i hi
    by_cases h : s < sept ∧ c ≤ 6
    · rw [epiphanySundayLoop_succ, if_pos h] at hi ⊢
      match i with
      | 0 => simp
      | i + 1 =>
        simp only [List.length_cons, Nat.add_lt_add_iff_right] at hi
        rw [List.get?_cons_succ]
        rw [ih (addDays s 7) sept (c + 1) i hi]
        have h2 : c + 1 + i = c + (i + 1) := by omega
        rw [h2]
        have h1 : addDays s 7 + 7 * (i : Int) = s + 7 * ((i : Nat) + 1 : Nat) := by
          simp [addDays]; ring
        rw [h1]
    · rw [epiphanySundayLoop_succ, if_neg h] at hi
      simp at hi

/-- Closed form of the Sundays-after-Pentecost collection loop, valid as
soon as the fuel covers the distance: one pair per week from the start
to the bound (inclusive), numbered consecutively. -/
theorem pentecostSundayLoop_eq (fuel : Nat) :
    ∀ (cur t : Int) (num : Nat), t + 7 - cur ≤ 7 * fuel →
      pentecostSundayLoop fuel cur t num =
        (List.range ((t + 7 - cur) / 7).toNat).map
          (fun (k : Nat) => ((cur + 7 * (k : Int), num + k) : Int × Nat)) := by
  induction fuel with
  | zero =>
    intro cur t num h
    have hn : ((t + 7 - cur) / 7).toNat = 0 := by omega
    simp [pentecostSundayLoop, hn]
  | succ f ih =>
    intro cur t num h
    rw [pentecostSundayLoop_succ]
    by_cases hc : cur ≤ t
    · rw [if_pos hc, ih (addDays cur 7) t (num + 1) (by simp only [addDays]; omega)]
      have hn : ((t + 7 - cur) / 7).toNat = ((t + 7 - addDays cur 7) / 7).toNat + 1 := by
        simp only [addDays]; omega
      rw [hn, List.range_succ_eq_map, List.map_cons, List.map_map]
      congr 1
      · simp
      · apply List.map_congr_left
        intro k _
        simp only [Function.comp_apply, addDays]
        refine Prod.ext ?_ ?_
        · push_cast; ring
        · simp; omega
    · rw [if_neg hc]
      have hn : ((t + 7 - cur) / 7).toNat = 0 := by omega
      simp [hn]

/-- The labelling pass over a closed-form pair list, as a map over the
slot index. -/
theorem zip_self_map {α β : Type} (g : α → β) :
    ∀ (l : List α), l.zip (l.map g) = l.map (fun a => (a, g a))
  | [] => rfl
  | a :: t => by simp [zip_self_map g t]

theorem pentecostSundayEntries_eq (n : Nat) (g : Nat → Int × Nat) :
    pentecostSundayEntries ((List.range n).map g) =
      (List.range n).map (fun k => pentecostSundayEntry (g k).1 (k + 2) (n - k)) := by
  unfold pentecostSundayEntries
  rw [List.enum_eq_zip_range, List.length_map, List.length_range, zip_self_map, List.map_map]
  apply List.map_congr_left
  intro k _
  simp

theorem sundayOnOrAfter_ge (d : Int) : d ≤ sundayOnOrAfter d := by
  simp only [sundayOnOrAfter, dayOfWeek, addDays]
  split_ifs <;> omega

theorem sundayOnOrAfter_le (d : Int) : sundayOnOrAfter d ≤ d + 6 := by
  simp only [sundayOnOrAfter, dayOfWeek, addDays]
  split_ifs <;> omega

-- ─── Claim C4 ────────────────────────────────────────────────────────

/-- Claim C4: `easterSunday(2025)` is April 20, 2025, and
`easterSunday(2026)` is April 5, 2026 (the spec's reference values);
`easterSunday` is by construction a pure function of the year. -/
theorem C4_easter_reference_values :
    easterSunday 2025 = makeDate 2025 4 20 ∧ easterSunday 2026 = makeDate 2026 4 5 := by
  decide

-- ─── Claim C9 ────────────────────────────────────────────────────────

/-- Claim C9: `getYearCycle(startYear) = startYear mod 3 + 1`; it is
periodic with period 3, and three consecutive start years cover exactly
the cycles {1, 2, 3}. -/
theorem C9_year_cycle (Y : Nat) :
    getYearCycle Y = Y % 3 + 1
      ∧ getYearCycle Y = getYearCycle (Y + 3)
      ∧ ({getYearCycle Y, getYearCycle (Y + 1), getYearCycle (Y + 2)} : Finset ℕ) = {1, 2, 3} := by
  refine ⟨rfl, by simp [getYearCycle, Nat.add_mod], ?_⟩
  ext a
  simp only [Finset.mem_insert, Finset.mem_singleton, getYearCycle]
  omega

-- ─── Claim C7 ────────────────────────────────────────────────────────

theorem advent1_mono_le {a b : Nat} (h : a ≤ b) : advent1 a ≤ advent1 b := by
  rcases Nat.eq_or_lt_of_le h with rfl | hlt
  · exact le_refl _
  · exact le_of_lt (advent1_strictMono hlt)

/-- The church year selected by `getChurchYearStart` starts on or before
the queried date. -/
theorem gcys_mem_lo (y : Nat) (m d : Int) (hy : 1 ≤ y) (hm1 : 1 ≤ m) (hm2 : m ≤ 12)
    (hd1 : 1 ≤ d) (hd2 : d ≤ 31) :
    advent1 (getChurchYearStart y m d) ≤ makeDate y m d := by
  rw [getChurchYearStart_eq]
  by_cases hlt : makeDate y m d < advent1 y
  · rw [if_pos hlt]
    have h1 : advent1 (y - 1) ≤ makeDate (↑(y - 1) : Int) 12 3 := advent1_ub (y - 1)
    have hc : ((y - 1 : Nat) : Int) = (y : Int) - 1 := by push_cast [hy]; ring
    have h2 : makeDate ((y : Int) - 1) 12 3 < makeDate y 1 1 := by
      have := makeDate_dec3_lt_jan1 ((y : Int) - 1)
      rwa [sub_add_cancel] at this
    have h3 := (makeDate_year_range (y := (y : Int)) hm1 hm2 hd1 hd2).1
    rw [hc] at h1
    omega
  · rw [if_neg hlt]
    omega

/-- The queried date precedes the next church year's 1st Advent. -/
theorem gcys_mem_hi (y : Nat) (m d : Int) (hy : 1 ≤ y) (hm1 : 1 ≤ m) (hm2 : m ≤ 12)
    (hd1 : 1 ≤ d) (hd2 : d ≤ 31) :
    makeDate y m d < advent1 (getChurchYearStart y m d + 1) := by
  rw [getChurchYearStart_eq]
  by_cases hlt : makeDate y m d < advent1 y
  · rw [if_pos hlt]
    have hc : y - 1 + 1 = y := by omega
    rw [hc]
    exact hlt
  · rw [if_neg hlt]
    have h1 : makeDate (y : Int) m d ≤ makeDate (y : Int) 12 31 :=
      (makeDate_year_range hm1 hm2 hd1 hd2).2
    have h2 := makeDate_dec31_lt_nov27 (y : Int)
    have h3 : makeDate (↑(y + 1) : Int) 11 27 ≤ advent1 (y + 1) := advent1_lb (y + 1)
    push_cast at h3
    omega

/-- The church-year intervals are pairwise disjoint: the start year is
the unique year whose interval contains the date. -/
theorem gcys_unique (y : Nat) (m d : Int) (hy : 1 ≤ y) (hm1 : 1 ≤ m) (hm2 : m ≤ 12)
    (hd1 : 1 ≤ d) (hd2 : d ≤ 31) (Y : Nat)
    (h1 : advent1 Y ≤ makeDate y m d) (h2 : makeDate y m d < advent1 (Y + 1)) :
    Y = getChurchYearStart y m d := by
  rcases Nat.lt_trichotomy Y (getChurchYearStart y m d) with hlt | heq | hgt
  · exfalso
    have : advent1 (Y + 1) ≤ advent1 (getChurchYearStart y m d) := advent1_mono_le hlt
    have := gcys_mem_lo y m d hy hm1 hm2 hd1 hd2
    omega
  · exact heq
  · exfalso
    have : advent1 (getChurchYearStart y m d + 1) ≤ advent1 Y := advent1_mono_le hgt
    have := gcys_mem_hi y m d hy hm1 hm2 hd1 hd2
    omega

/-- Claim C7: `getChurchYearStart(date)` returns the unique `Y` with
`date ∈ [nearestSunday(Nov 30, Y), nearestSunday(Nov 30, Y+1))`; in
particular it maps `nearestSunday(Nov 30, Y)` to `Y` and the day before
it to `Y − 1`, and `nearestSunday` goes back when the weekday is ≤ 3 and
forward otherwise. -/
theorem C7_getChurchYearStart_interval (y : Nat) (m d : Int)
    (hy : 1 ≤ y) (hm1 : 1 ≤ m) (hm2 : m ≤ 12) (hd1 : 1 ≤ d) (hd2 : d ≤ 31) :
    advent1 (getChurchYearStart y m d) ≤ makeDate y m d
    ∧ makeDate y m d < advent1 (getChurchYearStart y m d + 1)
    ∧ (∀ Y : Nat, advent1 Y ≤ makeDate y m d → makeDate y m d < advent1 (Y + 1) →
        Y = getChurchYearStart y m d)
    ∧ (∀ Y : Nat, makeDate y m d = advent1 Y → getChurchYearStart y m d = Y)
    ∧ (∀ Y : Nat, 1 ≤ Y → makeDate y m d = advent1 Y - 1 → getChurchYearStart y m d = Y - 1)
    ∧ (∀ date : Int, (dayOfWeek date ≤ 3 → nearestSunday date = date - dayOfWeek date)
        ∧ (3 < dayOfWeek date → nearestSunday date = date + (7 - dayOfWeek date))) := by
  refine ⟨gcys_mem_lo y m d hy hm1 hm2 hd1 hd2, gcys_mem_hi y m d hy hm1 hm2 hd1 hd2,
    fun Y h1 h2 => gcys_unique y m d hy hm1 hm2 hd1 hd2 Y h1 h2, ?_, ?_, ?_⟩
  · intro Y hEq
    refine (gcys_unique y m d hy hm1 hm2 hd1 hd2 Y (le_of_eq hEq.symm) ?_).symm
    have : advent1 Y < advent1 (Y + 1) := advent1_strictMono (by omega)
    omega
  · intro Y hY1 hEq
    have hstep : advent1 (Y - 1) < advent1 Y := advent1_strictMono (by omega)
    have hc : Y - 1 + 1 = Y := by omega
    refine (gcys_unique y m d hy hm1 hm2 hd1 hd2 (Y - 1) (by omega) ?_).symm
    rw [hc]
    omega
  · intro date
    constructor <;> intro h <;>
      simp only [nearestSunday, addDays] at * <;> split_ifs <;> omega

/-- A closed witness for `C7_getChurchYearStart_interval`. -/
theorem C7_witness :
    (1 ≤ 2025 ∧ (1 : Int) ≤ 11 ∧ (11 : Int) ≤ 12 ∧ (1 : Int) ≤ 30 ∧ (30 : Int) ≤ 31)
    ∧ advent1 (getChurchYearStart 2025 11 30) ≤ makeDate 2025 11 30 :=
  ⟨⟨by decide, by decide, by decide, by decide, by decide⟩,
    (C7_getChurchYearStart_interval 2025 11 30 (by decide) (by decide) (by decide)
      (by decide) (by decide)).1⟩


theorem matchList_eq_matchesOn (y : Nat) (m d : Int) :
    (generateChurchYear (getChurchYearStart y m d)).filter
        (fun e => decide (e.date = makeDate y m d)) = matchesOn y m d :=
  filter_generateChurchYear _ _

/-- Shape of the `resolveDate` result on the no-match branch. -/
theorem resolveDate_empty_fields (y : Nat) (m d : Int) (h : matchesOn y m d = []) :
    (resolveDate y m d).holyDay = none
    ∧ (resolveDate y m d).additionalServices = none
    ∧ (resolveDate y m d).precedingSunday =
        some ((findPrecedingSunday (generateChurchYear (getChurchYearStart y m d))
          (makeDate y m d)).map enrichEntry) := by
  have hM := matchList_eq_matchesOn y m d
  simp only [resolveDate, hM, h, List.isEmpty_nil, if_true]
  exact ⟨trivial, trivial, trivial⟩

/-- Shape of the `resolveDate` result on the match branch. -/
theorem resolveDate_nonempty_fields (y : Nat) (m d : Int) (h : matchesOn y m d ≠ []) :
    (resolveDate y m d).holyDay = some (enrichEntry (prioritizeEntries (matchesOn y m d)).headI)
    ∧ (resolveDate y m d).additionalServices =
        some ((prioritizeEntries (matchesOn y m d)).tail.map enrichEntry)
    ∧ (resolveDate y m d).precedingSunday = none := by
  have hM := matchList_eq_matchesOn y m d
  have hE : (matchesOn y m d).isEmpty = false := by
    cases hx : matchesOn y m d
    · exact absurd hx h
    · rfl
  simp only [resolveDate, hM, hE, Bool.false_eq_true, if_false]
  exact ⟨trivial, trivial, trivial⟩

theorem advent_entry_mem (Y : Nat) :
    (⟨advent1 Y, "1-adventtisunnuntai", "1. adventtisunnuntai", .sunday⟩ : Entry)
      ∈ rawChurchYear Y := by
  unfold rawChurchYear advent1
  simp

-- ─── Claim C10 ───────────────────────────────────────────────────────

/-- Claim C10: on a date with no calendar entry, the preceding-Sunday
scan always finds a sunday/feast entry on or before the date (the 1st
Advent entry opening the church year qualifies), so the returned
`precedingSunday` is present and non-null. -/
theorem C10_preceding_sunday_never_null (y : Nat) (m d : Int)
    (hy : 1 ≤ y) (hm1 : 1 ≤ m) (hm2 : m ≤ 12) (hd1 : 1 ≤ d) (hd2 : d ≤ 31)
    (hempty : matchesOn y m d = []) :
    (∃ e ∈ generateChurchYear (getChurchYearStart y m d),
        (e.type = .sunday ∨ e.type = .feast) ∧ e.date ≤ makeDate y m d)
    ∧ ∃ c, (resolveDate y m d).precedingSunday = some (some c) := by
  have hmem :
      (⟨advent1 (getChurchYearStart y m d), "1-adventtisunnuntai", "1. adventtisunnuntai",
        .sunday⟩ : Entry) ∈ generateChurchYear (getChurchYearStart y m d) :=
    mem_generateChurchYear_iff.mpr (advent_entry_mem _)
  have hle := gcys_mem_lo y m d hy hm1 hm2 hd1 hd2
  refine ⟨⟨_, hmem, Or.inl rfl, hle⟩, ?_⟩
  obtain ⟨c, hc⟩ := findPrecedingSunday_isSome hmem (Or.inl rfl) hle
  have hf := (resolveDate_empty_fields y m d hempty).2.2
  rw [hc] at hf
  exact ⟨enrichEntry c, by rw [hf, Option.map_some']⟩

/-- Witness for `C10_preceding_sunday_never_null` at 2026-01-20, an
ordinary Tuesday of the 2025–2026 church year. -/
theorem C10_witness :
    matchesOn 2026 1 20 = []
      ∧ ∃ c, (resolveDate 2026 1 20).precedingSunday = some (some c) :=
  ⟨by decide,
    (C10_preceding_sunday_never_null 2026 1 20 (by decide) (by decide) (by decide)
      (by decide) (by decide) (by decide)).2⟩

-- ─── Claim C8 ────────────────────────────────────────────────────────

/-- Counterexample to claim C8 as stated: 2026-02-03 is a valid date with
no matching calendar entry, and the object `resolveDate` returns for it
has no `additionalServices` field at all (the field is only populated on
the match branch). -/
theorem C8_counterexample :
    matchesOn 2026 2 3 = []
      ∧ (resolveDate 2026 2 3).additionalServices = none
      ∧ (resolveDate 2026 2 3).holyDay = none := by
  refine ⟨by decide, ?_, ?_⟩ <;> decide

/-- Claim C8 (amended): `resolveDate` returns an `additionalServices`
list exactly on dates with at least one matching entry (with one fewer
element than the matches, hence empty when exactly one entry matches);
on no-match dates the field is absent, `holyDay` is null and
`precedingSunday` is present. -/
theorem C8_additional_services_presence (y : Nat) (m d : Int) :
    (matchesOn y m d = [] →
      (resolveDate y m d).additionalServices = none
      ∧ (resolveDate y m d).holyDay = none
      ∧ ∃ p, (resolveDate y m d).precedingSunday = some p)
    ∧ (matchesOn y m d ≠ [] →
      ∃ l, (resolveDate y m d).additionalServices = some l
        ∧ l.length = (matchesOn y m d).length - 1
        ∧ (resolveDate y m d).holyDay ≠ none) := by
  constructor
  · intro h
    obtain ⟨h1, h2, h3⟩ := resolveDate_empty_fields y m d h
    exact ⟨h2, h1, _, h3⟩
  · intro h
    obtain ⟨h1, h2, _⟩ := resolveDate_nonempty_fields y m d h
    refine ⟨_, h2, ?_, by rw [h1]; exact Option.some_ne_none _⟩
    have hperm : (prioritizeEntries (matchesOn y m d)).length = (matchesOn y m d).length :=
      (List.perm_insertionSort byPriority (matchesOn y m d)).length_eq
    rw [List.length_map, List.length_tail, hperm]

/-- Witness for `C8_additional_services_presence` at Christmas Day 2025. -/
theorem C8_witness :
    matchesOn 2025 12 25 ≠ []
      ∧ ∃ l, (resolveDate 2025 12 25).additionalServices = some l
          ∧ l.length = (matchesOn 2025 12 25).length - 1
          ∧ (resolveDate 2025 12 25).holyDay ≠ none :=
  ⟨by decide,
    (C8_additional_services_presence 2025 12 25).2 (by decide)⟩

-- ─── Claim C3 ────────────────────────────────────────────────────────

theorem makeDate_dec3_le_dec6 (y : Int) : makeDate y 12 3 ≤ makeDate y 12 6 := by
  simp only [makeDate, daysBeforeYear]
  norm_num

/-- Claim C3 refutation: every generated calendar contains the
Independence Day entry dated Dec 6 of `startYear + 1`, which falls on or
after the next church year's 1st Advent — outside the church-year
boundaries the claim asserts.  Concretely, `generateChurchYear 2025`
contains an entry dated 2026-12-06 while the 2026 church year already
starts 2026-11-29. -/
theorem C3_itsenaisyyspaiva_outside_boundary (Y : Nat) :
    ((⟨makeDate (↑Y + 1) 12 6, "itsenaisyyspaiva", "Itsenäisyyspäivä", .special⟩ : Entry)
        ∈ generateChurchYear Y
      ∧ advent1 (Y + 1) ≤ makeDate (↑Y + 1) 12 6)
    ∧ advent1 2026 = makeDate 2026 11 29 := by
  refine ⟨⟨?_, ?_⟩, by decide⟩
  · rw [mem_generateChurchYear_iff]
    unfold rawChurchYear
    simp
  · have h1 := advent1_ub (Y + 1)
    have h2 := makeDate_dec3_le_dec6 ((Y : Int) + 1)
    push_cast at h1
    omega

-- ─── Claim C5 ────────────────────────────────────────────────────────

/-- Claim C5: every generated church year contains Ascension (feast) at
Easter + 39, Pentecost Eve (service) at Easter + 48 and Pentecost (feast)
at Easter + 49, Easter being that of `startYear + 1`. -/
theorem C5_ascension_pentecost_offsets (Y : Nat) :
    (⟨easterSunday (Y + 1) + 39, "helatorstai", "Helatorstai", .feast⟩ : Entry)
        ∈ generateChurchYear Y
    ∧ (⟨easterSunday (Y + 1) + 48, "helluntaiaatto", "Helluntaiaatto", .service⟩ : Entry)
        ∈ generateChurchYear Y
    ∧ (⟨easterSunday (Y + 1) + 49, "helluntaipaiva", "Helluntaipäivä", .feast⟩ : Entry)
        ∈ generateChurchYear Y := by
  refine ⟨?_, ?_, ?_⟩ <;> rw [mem_generateChurchYear_iff] <;> unfold rawChurchYear <;>
    simp [addDays]
  omega


-- ─── Claim C2 ────────────────────────────────────────────────────────

theorem makeDate_apr25_nov27 (y : Int) : makeDate y 4 25 + 77 ≤ makeDate y 11 27 := by
  simp only [makeDate, daysBeforeYear]
  norm_num
  omega

theorem makeDate_dec3_mar22 (y : Int) : makeDate y 12 3 - makeDate y 3 22 ≤ 260 := by
  simp only [makeDate, daysBeforeYear]
  norm_num
  omega

/-- Claim C2: the Sundays-after-Pentecost run ends exactly at
`nearestSunday(Nov 30, Y+1) − 7`; the last slot is relabelled
Tuomiosunnuntai, the second-to-last Valvomisen sunnuntai (dated 7 and 14
days before next Advent), and these end-of-year relabelings apply
whatever the slot's running index is — in particular for indices 6, 8
and 22, taking precedence over the index-based feast relabeling. -/
theorem C2_end_of_year_relabeling (Y : Nat) :
    2 ≤ (pentecostBlock Y).length
    ∧ (pentecostBlock Y).get? ((pentecostBlock Y).length - 1) =
        some ⟨advent1 (Y + 1) - 7, "tuomiosunnuntai", "Tuomiosunnuntai", .sunday⟩
    ∧ (pentecostBlock Y).get? ((pentecostBlock Y).length - 2) =
        some ⟨advent1 (Y + 1) - 14, "valvomisen-sunnuntai", "Valvomisen sunnuntai", .sunday⟩
    ∧ (∀ (date : Int) (fs : Nat),
        pentecostSundayEntry date fs 1 = ⟨date, "tuomiosunnuntai", "Tuomiosunnuntai", .sunday⟩
        ∧ pentecostSundayEntry date fs 2 =
            ⟨date, "valvomisen-sunnuntai", "Valvomisen sunnuntai", .sunday⟩)
    ∧ (∀ e ∈ pentecostBlock Y, e ∈ generateChurchYear Y) := by
  have hcast : ((Y + 1 : Nat) : Int) = (Y : Int) + 1 := by push_cast; ring
  have hADV : nearestSunday (makeDate ((Y : Int) + 1) 11 30) = advent1 (Y + 1) := by
    unfold advent1
    rw [hcast]
  have hEub := easter_ub (Y + 1)
  have hElb := easter_lb (Y + 1)
  have hEdow := easter_dow (Y + 1)
  have hAdow := advent1_dow (Y + 1)
  have hAlb := advent1_lb (Y + 1)
  have hAub := advent1_ub (Y + 1)
  push_cast at hEub hElb hAlb hAub
  simp only [dayOfWeek] at hEdow hAdow
  have harith1 := makeDate_apr25_nov27 ((Y : Int) + 1)
  have harith2 := makeDate_dec3_mar22 ((Y : Int) + 1)
  set E := easterSunday (Y + 1) with hE
  set A := advent1 (Y + 1) with hA
  have hfuel : addDays A (-7) + 7 - addDays (addDays E 49) 14 ≤ 7 * 60 := by
    simp only [addDays]
    omega
  have hloop := pentecostSundayLoop_eq 60 (addDays (addDays E 49) 14) (addDays A (-7)) 2 hfuel
  set n := ((addDays A (-7) + 7 - addDays (addDays E 49) 14) / 7).toNat with hn
  have hmod : (A - 7 - (E + 63)) % 7 = 0 := by omega
  have hn2 : 2 ≤ n := by
    simp only [addDays] at hn
    omega
  have hB : pentecostBlock Y =
      (List.range n).map (fun (k : Nat) =>
        pentecostSundayEntry (addDays (addDays E 49) 14 + 7 * (k : Int)) (k + 2) (n - k)) := by
    simp only [pentecostBlock, hADV, hA, hE]
    rw [hloop, pentecostSundayEntries_eq]
  have hlen : (pentecostBlock Y).length = n := by
    rw [hB, List.length_map, List.length_range]
  refine ⟨by omega, ?_, ?_, ?_, ?_⟩
  · rw [hlen, hB, List.get?_map, List.get?_range (by omega : n - 1 < n)]
    have h1 : n - (n - 1) = 1 := by omega
    have hdate : addDays (addDays E 49) 14 + 7 * ((n - 1 : Nat) : Int) = A - 7 := by
      have hc : ((n - 1 : Nat) : Int) = (n : Int) - 1 := by omega
      simp only [addDays, hc]
      simp only [addDays] at hn
      omega
    simp only [Option.map_some']
    rw [h1, hdate]
    simp [pentecostSundayEntry]
  · rw [hlen, hB, List.get?_map, List.get?_range (by omega : n - 2 < n)]
    have h1 : n - (n - 2) = 2 := by omega
    have hdate : addDays (addDays E 49) 14 + 7 * ((n - 2 : Nat) : Int) = A - 14 := by
      have hc : ((n - 2 : Nat) : Int) = (n : Int) - 2 := by omega
      simp only [addDays, hc]
      simp only [addDays] at hn
      omega
    simp only [Option.map_some']
    rw [h1, hdate]
    simp [pentecostSundayEntry]
  · intro date fs
    constructor <;> simp [pentecostSundayEntry]
  · intro e he
    rw [mem_generateChurchYear_iff]
    unfold rawChurchYear
    simp only [List.mem_append]
    tauto


-- ─── Claim C6 ────────────────────────────────────────────────────────

theorem makeDate_jan6_mar22 (y : Int) : makeDate y 1 6 + 70 < makeDate y 3 22 := by
  simp only [makeDate, daysBeforeYear]
  norm_num
  omega

/-- The Sundays-after-Epiphany block: between 1 and 6 entries, each
strictly before Easter − 63, numbered consecutively from 1 at weekly
intervals from the first Sunday strictly after January 6, all present in
the generated calendar. -/
theorem epiphanyBlock_spec (Y : Nat) :
    1 ≤ (epiphanyBlock Y).length
    ∧ (epiphanyBlock Y).length ≤ 6
    ∧ (∀ e ∈ epiphanyBlock Y, e.date < easterSunday (Y + 1) - 63)
    ∧ (∀ i, i < (epiphanyBlock Y).length →
        (epiphanyBlock Y).get? i =
          some ⟨sundayOnOrAfter (addDays (makeDate ((Y : Int) + 1) 1 6) 1) + 7 * (i : Int),
            s!"{i + 1}-sunnuntai-loppiaisesta", s!"{i + 1}. sunnuntai loppiaisesta", .sunday⟩)
    ∧ (∀ e ∈ epiphanyBlock Y, e ∈ generateChurchYear Y) := by
  have hcast : ((Y + 1 : Nat) : Int) = (Y : Int) + 1 := by push_cast; ring
  have hElb := easter_lb (Y + 1)
  push_cast at hElb
  have harith := makeDate_jan6_mar22 ((Y : Int) + 1)
  have hsoa := sundayOnOrAfter_le (addDays (makeDate ((Y : Int) + 1) 1 6) 1)
  have hBdef : epiphanyBlock Y =
      epiphanySundayLoop 7 (sundayOnOrAfter (addDays (makeDate ((Y : Int) + 1) 1 6) 1))
        (addDays (easterSunday (Y + 1)) (-63)) 1 := rfl
  have hs : sundayOnOrAfter (addDays (makeDate ((Y : Int) + 1) 1 6) 1)
      < addDays (easterSunday (Y + 1)) (-63) := by
    simp only [addDays] at *
    omega
  refine ⟨?_, ?_, ?_, ?_, ?_⟩
  · rw [hBdef]
    exact epiphanySundayLoop_length_pos 7 _ _ 1 (by omega) hs (by omega)
  · rw [hBdef]
    have := epiphanySundayLoop_length_le 7
      (sundayOnOrAfter (addDays (makeDate ((Y : Int) + 1) 1 6) 1))
      (addDays (easterSunday (Y + 1)) (-63)) 1
    omega
  · intro e he
    rw [hBdef] at he
    have := epiphanySundayLoop_date_lt 7 _ _ _ _ he
    simp only [addDays] at this
    omega
  · intro i hi
    rw [hBdef] at hi ⊢
    have := epiphanySundayLoop_get 7
      (sundayOnOrAfter (addDays (makeDate ((Y : Int) + 1) 1 6) 1))
      (addDays (easterSunday (Y + 1)) (-63)) 1 i hi
    rw [this]
    have hc : 1 + i = i + 1 := by omega
    rw [hc]
  · intro e he
    rw [mem_generateChurchYear_iff]
    unfold rawChurchYear
    simp only [List.mem_append]
    rw [hBdef] at he
    have he2 : e ∈ epiphanyBlock Y := by rw [hBdef]; exact he
    tauto

theorem countP_optEntry_zero (o : Option Int) (s nm : String) (t : EntryType)
    (h : decide (s ∈ epiphanySundaySlugs) = false) :
    (optEntry o s nm t).countP (fun e => decide (e.slug ∈ epiphanySundaySlugs)) = 0 := by
  cases o <;> simp [optEntry, List.countP_cons, h]

theorem countP_ifSingle_zero (c : Prop) [Decidable c] (dt : Int) (s nm : String) (t : EntryType)
    (h : decide (s ∈ epiphanySundaySlugs) = false) :
    (if c then [(⟨dt, s, nm, t⟩ : Entry)] else []).countP
      (fun e => decide (e.slug ∈ epiphanySundaySlugs)) = 0 := by
  split_ifs <;> simp [List.countP_cons, h]

theorem pentecostSundayLoop_length_le_fuel (fuel : Nat) :
    ∀ (cur t : Int) (num : Nat), (pentecostSundayLoop fuel cur t num).length ≤ fuel := by
  induction fuel with
  | zero => intro cur t num; simp [pentecostSundayLoop]
  | succ f ih =>
    intro cur t num
    rw [pentecostSundayLoop_succ]
    split_ifs
    · have := ih (addDays cur 7) t (num + 1)
      simp only [List.length_cons]
      omega
    · simp

theorem pentecostSundayEntry_slug_not (dt : Int) (fs fe : Nat) (hfs : fs ≤ 62) :
    decide ((pentecostSundayEntry dt fs fe).slug ∈ epiphanySundaySlugs) = false := by
  unfold pentecostSundayEntry
  split_ifs <;> try rfl
  interval_cases fs <;> rfl

theorem countP_pentecostBlock_zero (Y : Nat) :
    (pentecostBlock Y).countP (fun e => decide (e.slug ∈ epiphanySundaySlugs)) = 0 := by
  rw [List.countP_eq_zero]
  intro e he
  unfold pentecostBlock pentecostSundayEntries at he
  obtain ⟨ip, hip, rfl⟩ := List.mem_map.mp he
  rw [List.enum_eq_zip_range] at hip
  have h1 : ip.1 ∈ List.range (List.length _) := (List.of_mem_zip hip).1
  have h2 := List.mem_range.mp h1
  have h3 := pentecostSundayLoop_length_le_fuel 60
    (addDays (addDays (easterSunday (Y + 1)) 49) 14)
    (addDays (nearestSunday (makeDate ((Y : Int) + 1) 11 30)) (-7)) 2
  simp [pentecostSundayEntry_slug_not _ _ _ (by omega : ip.1 + 2 ≤ 62)]

theorem countP_epiphanyBlock_len (Y : Nat) :
    (epiphanyBlock Y).countP (fun e => decide (e.slug ∈ epiphanySundaySlugs)) =
      (epiphanyBlock Y).length := by
  rw [List.countP_eq_length]
  intro e he
  obtain ⟨i, hi⟩ := List.mem_iff_get?.mp he
  have hilen : i < (epiphanyBlock Y).length := by
    by_contra hcon
    rw [List.get?_eq_none.mpr (by omega)] at hi
    exact Option.noConfusion hi
  have hlen6 : (epiphanyBlock Y).length ≤ 6 := by
    unfold epiphanyBlock
    have := epiphanySundayLoop_length_le 7
      (sundayOnOrAfter (addDays (makeDate ((Y : Int) + 1) 1 6) 1))
      (addDays (easterSunday (Y + 1)) (-63)) 1
    omega
  rw [show epiphanyBlock Y = epiphanySundayLoop 7
      (sundayOnOrAfter (addDays (makeDate ((Y : Int) + 1) 1 6) 1))
      (addDays (easterSunday (Y + 1)) (-63)) 1 from rfl] at hi hilen
  rw [epiphanySundayLoop_get 7 _ _ 1 i hilen] at hi
  obtain rfl := Option.some_inj.mp hi
  show decide _ = true
  have hi5 : i ≤ 5 := by
    rw [show epiphanySundayLoop 7
        (sundayOnOrAfter (addDays (makeDate ((Y : Int) + 1) 1 6) 1))
        (addDays (easterSunday (Y + 1)) (-63)) 1 = epiphanyBlock Y from rfl] at hilen
    omega
  interval_cases i <;> rfl


/-- Calendar-wide count: the only entries whose slug is one of the six
`N-sunnuntai-loppiaisesta` slugs are exactly those of the
Sundays-after-Epiphany block. -/
theorem countP_rawChurchYear_epiphany (Y : Nat) :
    (rawChurchYear Y).countP (fun e => decide (e.slug ∈ epiphanySundaySlugs)) =
      (epiphanyBlock Y).length := by
  unfold rawChurchYear
  simp only [List.countP_append]
  have h1 := countP_epiphanyBlock_len Y
  have h2 := countP_pentecostBlock_zero Y
  have h3 := countP_optEntry_zero
    (sundayAfterInRange (makeDate (Y : Int) 12 25) (makeDate (Y : Int) 12 27)
      (makeDate ((Y : Int) + 1) 1 2)) "1-sunnuntai-joulusta" "1. sunnuntai joulusta" .sunday rfl
  have h4 := countP_optEntry_zero
    (sundayAfterInRange (makeDate ((Y : Int) + 1) 1 1) (makeDate ((Y : Int) + 1) 1 2)
      (makeDate ((Y : Int) + 1) 1 5)) "2-sunnuntai-joulusta" "2. sunnuntai joulusta" .sunday rfl
  have h5 := countP_ifSingle_zero
    (makeDate ((Y : Int) + 1) 3 25 < addDays (easterSunday (Y + 1)) (-6)
      ∨ addDays (easterSunday (Y + 1)) 7 < makeDate ((Y : Int) + 1) 3 25)
    (makeDate ((Y : Int) + 1) 3 25) "marian-ilmestyspaiva" "Marian ilmestyspäivä" .special rfl
  have h6 := countP_ifSingle_zero
    (makeDate ((Y : Int) + 1) 6 20 ≤ saturdayOnOrBefore (makeDate ((Y : Int) + 1) 6 26))
    (saturdayOnOrBefore (makeDate ((Y : Int) + 1) 6 26)) "juhannuspaiva" "Juhannuspäivä" .special rfl
  have h7 := countP_ifSingle_zero
    (sundayOnOrAfter (makeDate ((Y : Int) + 1) 9 29) ≤ makeDate ((Y : Int) + 1) 10 5)
    (sundayOnOrAfter (makeDate ((Y : Int) + 1) 9 29)) "mikkelinpaiva" "Mikkelinpäivä" .special rfl
  have h8 := countP_ifSingle_zero
    (makeDate ((Y : Int) + 1) 10 31 ≤ saturdayOnOrBefore (makeDate ((Y : Int) + 1) 11 6))
    (saturdayOnOrBefore (makeDate ((Y : Int) + 1) 11 6)) "pyhainpaiva" "Pyhäinpäivä" .special rfl
  have hb : ([⟨nearestSunday (makeDate (Y : Int) 11 30), "1-adventtisunnuntai",
      "1. adventtisunnuntai", .sunday⟩] : List Entry).countP
      (fun e => decide (e.slug ∈ epiphanySundaySlugs)) = 0 := rfl
  have hc : (addWeekdays (nearestSunday (makeDate (Y : Int) 11 30))
      "1-adventtisunnuntain-jalkeinen-viikko" "1. adventtisunnuntain jälkeinen viikko").countP
      (fun e => decide (e.slug ∈ epiphanySundaySlugs)) = 0 := rfl
  have hd : ([⟨addDays (nearestSunday (makeDate (Y : Int) 11 30)) 7, "2-adventtisunnuntai",
        "2. adventtisunnuntai", .sunday⟩,
      ⟨addDays (nearestSunday (makeDate (Y : Int) 11 30)) 14, "3-adventtisunnuntai",
        "3. adventtisunnuntai", .sunday⟩,
      ⟨addDays (nearestSunday (makeDate (Y : Int) 11 30)) 21, "4-adventtisunnuntai",
        "4. adventtisunnuntai", .sunday⟩,
      ⟨makeDate (Y : Int) 12 24, "jouluaatto", "Jouluaatto", .feast⟩,
      ⟨makeDate (Y : Int) 12 25, "joulupaiva", "Joulupäivä", .feast⟩,
      ⟨makeDate (Y : Int) 12 26, "tapaninpaiva", "Tapaninpäivä", .feast⟩,
      ⟨makeDate (Y : Int) 12 27, "apostoli-johanneksen-paiva", "Apostoli Johanneksen päivä", .feast⟩,
      ⟨makeDate (Y : Int) 12 28, "viattomien-lasten-paiva", "Viattomien lasten päivä",
        .feast⟩] : List Entry).countP (fun e => decide (e.slug ∈ epiphanySundaySlugs)) = 0 := rfl
  have hf : ([⟨makeDate (Y : Int) 12 31, "uudenvuodenaatto", "Uudenvuodenaatto", .feast⟩,
      ⟨makeDate ((Y : Int) + 1) 1 1, "uudenvuodenpaiva", "Uudenvuodenpäivä",
        .feast⟩] : List Entry).countP (fun e => decide (e.slug ∈ epiphanySundaySlugs)) = 0 := rfl
  have hi : ([⟨makeDate ((Y : Int) + 1) 1 6, "loppiainen", "Loppiainen",
      .feast⟩] : List Entry).countP (fun e => decide (e.slug ∈ epiphanySundaySlugs)) = 0 := rfl
  have hk : ([⟨addDays (easterSunday (Y + 1)) (-63), "3-sunnuntai-ennen-paastonaikaa",
        "3. sunnuntai ennen paastonaikaa", .sunday⟩,
      ⟨addDays (easterSunday (Y + 1)) (-56), "2-sunnuntai-ennen-paastonaikaa",
        "2. sunnuntai ennen paastonaikaa", .sunday⟩,
      ⟨addDays (easterSunday (Y + 1)) (-49), "laskiaissunnuntai", "Laskiaissunnuntai", .sunday⟩,
      ⟨addDays (easterSunday (Y + 1)) (-46), "tuhkakeskiviikko", "Tuhkakeskiviikko",
        .weekday⟩] : List Entry).countP (fun e => decide (e.slug ∈ epiphanySundaySlugs)) = 0 := rfl
  have hl : ((List.range 5).map (fun (i : Nat) =>
      (⟨addDays (easterSunday (Y + 1)) (-49 + 7 * ((i : Int) + 1)), s!"{i + 1}-paastonajan-sunnuntai",
        s!"{i + 1}. paastonajan sunnuntai", .sunday⟩ : Entry))).countP
      (fun e => decide (e.slug ∈ epiphanySundaySlugs)) = 0 := rfl
  have hm : ([⟨addDays (easterSunday (Y + 1)) (-7), "palmusunnuntai", "Palmusunnuntai", .sunday⟩,
      ⟨addDays (easterSunday (Y + 1)) (-6), "hiljaisen-viikon-maanantai", "Hiljaisen viikon maanantai", .weekday⟩,
      ⟨addDays (easterSunday (Y + 1)) (-5), "hiljaisen-viikon-tiistai", "Hiljaisen viikon tiistai", .weekday⟩,
      ⟨addDays (easterSunday (Y + 1)) (-4), "hiljaisen-viikon-keskiviikko", "Hiljaisen viikon keskiviikko", .weekday⟩,
      ⟨addDays (easterSunday (Y + 1)) (-3), "kiirastorstai", "Kiirastorstai", .feast⟩,
      ⟨addDays (easterSunday (Y + 1)) (-2), "pitkaperjantai", "Pitkäperjantai", .feast⟩,
      ⟨addDays (easterSunday (Y + 1)) (-2), "jeesuksen-kuolinhetki", "Jeesuksen kuolinhetki", .service⟩,
      ⟨addDays (easterSunday (Y + 1)) (-2), "pitkaperjantain-ilta", "Pitkäperjantain ilta", .service⟩,
      ⟨addDays (easterSunday (Y + 1)) (-1), "hiljainen-lauantai", "Hiljainen lauantai", .weekday⟩,
      ⟨addDays (easterSunday (Y + 1)) (-1), "paasiaisyo", "Pääsiäisyö", .service⟩,
      ⟨easterSunday (Y + 1), "paasiaispaiva", "Pääsiäispäivä", .feast⟩,
      ⟨addDays (easterSunday (Y + 1)) 1, "2-paasiaispaiva", "2. pääsiäispäivä", .feast⟩,
      ⟨addDays (easterSunday (Y + 1)) 2, "paasiaisen-jalkeinen-tiistai", "Pääsiäisen jälkeinen tiistai", .weekday⟩,
      ⟨addDays (easterSunday (Y + 1)) 3, "paasiaisen-jalkeinen-keskiviikko", "Pääsiäisen jälkeinen keskiviikko", .weekday⟩,
      ⟨addDays (easterSunday (Y + 1)) 4, "paasiaisen-jalkeinen-torstai", "Pääsiäisen jälkeinen torstai", .weekday⟩,
      ⟨addDays (easterSunday (Y + 1)) 5, "paasiaisen-jalkeinen-perjantai", "Pääsiäisen jälkeinen perjantai", .weekday⟩,
      ⟨addDays (easterSunday (Y + 1)) 6, "paasiaisen-jalkeinen-lauantai", "Pääsiäisen jälkeinen lauantai",
        .weekday⟩] : List Entry).countP (fun e => decide (e.slug ∈ epiphanySundaySlugs)) = 0 := rfl
  have hn : ((List.range 6).map (fun (i : Nat) =>
      (⟨addDays (easterSunday (Y + 1)) (((i : Int) + 1) * 7), s!"{i + 1}-sunnuntai-paasiaisesta",
        s!"{i + 1}. sunnuntai pääsiäisestä", .sunday⟩ : Entry))).countP
      (fun e => decide (e.slug ∈ epiphanySundaySlugs)) = 0 := rfl
  have ho : ([⟨addDays (easterSunday (Y + 1)) 39, "helatorstai", "Helatorstai", .feast⟩,
      ⟨addDays (addDays (easterSunday (Y + 1)) 49) (-1), "helluntaiaatto", "Helluntaiaatto", .service⟩,
      ⟨addDays (easterSunday (Y + 1)) 49, "helluntaipaiva", "Helluntaipäivä",
        .feast⟩] : List Entry).countP (fun e => decide (e.slug ∈ epiphanySundaySlugs)) = 0 := rfl
  have hp : (addWeekdays (addDays (easterSunday (Y + 1)) 49)
      "helluntain-jalkeinen-viikko-eli-helluntaiviikko" "Helluntain jälkeinen viikko").countP
      (fun e => decide (e.slug ∈ epiphanySundaySlugs)) = 0 := rfl
  have hq : ([⟨addDays (addDays (easterSunday (Y + 1)) 49) 7, "pyhan-kolminaisuuden-paiva",
      "Pyhän Kolminaisuuden päivä", .sunday⟩] : List Entry).countP
      (fun e => decide (e.slug ∈ epiphanySundaySlugs)) = 0 := rfl
  have hs : ([⟨makeDate ((Y : Int) + 1) 2 2, "kynttilanpaiva", "Kynttilänpäivä",
      .special⟩] : List Entry).countP (fun e => decide (e.slug ∈ epiphanySundaySlugs)) = 0 := rfl
  have hx : ([⟨makeDate ((Y : Int) + 1) 1 19, "pyhan-henrikin-muistopaiva", "Pyhän Henrikin muistopäivä", .special⟩,
      ⟨makeDate ((Y : Int) + 1) 12 6, "itsenaisyyspaiva", "Itsenäisyyspäivä", .special⟩,
      ⟨makeDate ((Y : Int) + 1) 1 18, "kansalliset-rukouspaivat", "Kristittyjen ykseyden rukouspäivä", .special⟩,
      ⟨makeDate ((Y : Int) + 1) 10 24, "kansalliset-rukouspaivat",
        "Rauhan, ihmisoikeuksien ja kansainvälisen vastuun rukouspäivä",
        .special⟩] : List Entry).countP (fun e => decide (e.slug ∈ epiphanySundaySlugs)) = 0 := rfl
  omega

/-- Claim C6: the generated calendar contains between 1 and 6
`N-sunnuntai-loppiaisesta` entries (and no other entry carries such a
slug), each dated strictly before Easter − 63 of `startYear + 1`, numbered
consecutively from 1 at weekly intervals starting from the first Sunday
strictly after January 6. -/
theorem C6_epiphany_sundays (Y : Nat) :
    (1 ≤ (epiphanyBlock Y).length ∧ (epiphanyBlock Y).length ≤ 6)
    ∧ (∀ e ∈ epiphanyBlock Y, e.date < easterSunday (Y + 1) - 63)
    ∧ (∀ i, i < (epiphanyBlock Y).length →
        (epiphanyBlock Y).get? i =
          some ⟨sundayOnOrAfter (addDays (makeDate ((Y : Int) + 1) 1 6) 1) + 7 * (i : Int),
            s!"{i + 1}-sunnuntai-loppiaisesta", s!"{i + 1}. sunnuntai loppiaisesta", .sunday⟩)
    ∧ (∀ e ∈ epiphanyBlock Y, e ∈ generateChurchYear Y)
    ∧ (generateChurchYear Y).countP (fun e => decide (e.slug ∈ epiphanySundaySlugs)) =
        (epiphanyBlock Y).length := by
  obtain ⟨a, b, c, d, e⟩ := epiphanyBlock_spec Y
  refine ⟨⟨a, b⟩, c, d, e, ?_⟩
  exact ((List.perm_insertionSort byDate (rawChurchYear Y)).countP_eq _).trans
    (countP_rawChurchYear_epiphany Y)

-- ─── Claim C1 ────────────────────────────────────────────────────────

theorem pentecostSundayEntry_date (dt : Int) (fs fe : Nat) :
    (pentecostSundayEntry dt fs fe).date = dt := by
  unfold pentecostSundayEntry
  split_ifs <;> rfl

theorem pentecostSundayLoop_fst_ge (fuel : Nat) :
    ∀ (cur t : Int) (num : Nat) (pr : Int × Nat),
      pr ∈ pentecostSundayLoop fuel cur t num → cur ≤ pr.1 := by
  induction fuel with
  | zero => intro cur t num pr h; simp [pentecostSundayLoop] at h
  | succ f ih =>
    intro cur t num pr h
    rw [pentecostSundayLoop_succ] at h
    split_ifs at h
    · rcases List.mem_cons.mp h with rfl | hm
      · exact le_refl _
      · have := ih (addDays cur 7) t (num + 1) pr hm
        simp only [addDays] at this
        omega
    · simp at h

theorem sundayAfterInRange_bounds {a rs re v : Int}
    (h : sundayAfterInRange a rs re = some v) : rs ≤ v ∧ v ≤ re := by
  simp only [sundayAfterInRange] at h
  split_ifs at h with hc
  obtain rfl := Option.some_inj.mp h
  exact hc

set_option maxHeartbeats 1600000 in
/-- On Good Friday (Easter − 2) the raw calendar's entries are exactly
the feast entry followed by its two service entries, in generation
order: no other generated entry shares that date, in any year. -/
theorem rawFilter_goodFriday (Y : Nat) :
    (rawChurchYear Y).filter (fun e => decide (e.date = easterSunday (Y + 1) - 2)) =
      [⟨easterSunday (Y + 1) - 2, "pitkaperjantai", "Pitkäperjantai", .feast⟩,
       ⟨easterSunday (Y + 1) - 2, "jeesuksen-kuolinhetki", "Jeesuksen kuolinhetki", .service⟩,
       ⟨easterSunday (Y + 1) - 2, "pitkaperjantain-ilta", "Pitkäperjantain ilta", .service⟩] := by
  have hEub := easter_ub (Y + 1)
  have hElb := easter_lb (Y + 1)
  push_cast at hEub hElb
  simp only [makeDate, daysBeforeYear] at hEub hElb
  norm_num at hEub hElb
  have hb : ([⟨nearestSunday (makeDate (Y : Int) 11 30), "1-adventtisunnuntai",
      "1. adventtisunnuntai", .sunday⟩] : List Entry).filter
      (fun e => decide (e.date = easterSunday (Y + 1) - 2)) = [] := by
    rw [List.filter_eq_nil_iff]
    intro e he
    fin_cases he <;>
      simp only [decide_eq_true_eq, addDays, nearestSunday, dayOfWeek, makeDate,
        daysBeforeYear] <;>
      norm_num <;>
      first
      | omega
      | (split_ifs <;> omega)
  have hc : (addWeekdays (nearestSunday (makeDate (Y : Int) 11 30))
      "1-adventtisunnuntain-jalkeinen-viikko" "1. adventtisunnuntain jälkeinen viikko").filter
      (fun e => decide (e.date = easterSunday (Y + 1) - 2)) = [] := by
    rw [List.filter_eq_nil_iff]
    intro e he
    simp only [addWeekdays, List.mem_map, List.mem_range] at he
    obtain ⟨k, hk, rfl⟩ := he
    simp only [decide_eq_true_eq, addDays, nearestSunday, dayOfWeek, makeDate, daysBeforeYear]
    norm_num
    split_ifs <;> omega
  have hd : ([⟨addDays (nearestSunday (makeDate (Y : Int) 11 30)) 7, "2-adventtisunnuntai",
        "2. adventtisunnuntai", .sunday⟩,
      ⟨addDays (nearestSunday (makeDate (Y : Int) 11 30)) 14, "3-adventtisunnuntai",
        "3. adventtisunnuntai", .sunday⟩,
      ⟨addDays (nearestSunday (makeDate (Y : Int) 11 30)) 21, "4-adventtisunnuntai",
        "4. adventtisunnuntai", .sunday⟩,
      ⟨makeDate (Y : Int) 12 24, "jouluaatto", "Jouluaatto", .feast⟩,
      ⟨makeDate (Y : Int) 12 25, "joulupaiva", "Joulupäivä", .feast⟩,
      ⟨makeDate (Y : Int) 12 26, "tapaninpaiva", "Tapaninpäivä", .feast⟩,
      ⟨makeDate (Y : Int) 12 27, "apostoli-johanneksen-paiva", "Apostoli Johanneksen päivä", .feast⟩,
      ⟨makeDate (Y : Int) 12 28, "viattomien-lasten-paiva", "Viattomien lasten päivä", .feast⟩] : List Entry).filter
      (fun e => decide (e.date = easterSunday (Y + 1) - 2)) = [] := by
    rw [List.filter_eq_nil_iff]
    intro e he
    fin_cases he <;>
      simp only [decide_eq_true_eq, addDays, nearestSunday, dayOfWeek, makeDate,
        daysBeforeYear] <;>
      norm_num <;>
      first
      | omega
      | (split_ifs <;> omega)
  have he1 : (optEntry (sundayAfterInRange (makeDate (Y : Int) 12 25) (makeDate (Y : Int) 12 27)
      (makeDate ((Y : Int) + 1) 1 2)) "1-sunnuntai-joulusta" "1. sunnuntai joulusta" .sunday).filter
      (fun e => decide (e.date = easterSunday (Y + 1) - 2)) = [] := by
    rcases hv : sundayAfterInRange (makeDate (Y : Int) 12 25) (makeDate (Y : Int) 12 27) (makeDate ((Y : Int) + 1) 1 2) with _ | v
    · rfl
    · obtain ⟨hv1, hv2⟩ := sundayAfterInRange_bounds hv
      rw [List.filter_eq_nil_iff]
      intro e hee
      simp only [optEntry, List.mem_singleton] at hee
      subst hee
      simp only [decide_eq_true_eq, makeDate, daysBeforeYear] at hv2 ⊢
      norm_num at hv2 ⊢
      omega
  have hg1 : (optEntry (sundayAfterInRange (makeDate ((Y : Int) + 1) 1 1) (makeDate ((Y : Int) + 1) 1 2)
      (makeDate ((Y : Int) + 1) 1 5)) "2-sunnuntai-joulusta" "2. sunnuntai joulusta" .sunday).filter
      (fun e => decide (e.date = easterSunday (Y + 1) - 2)) = [] := by
    rcases hv : sundayAfterInRange (makeDate ((Y : Int) + 1) 1 1) (makeDate ((Y : Int) + 1) 1 2) (makeDate ((Y : Int) + 1) 1 5) with _ | v
    · rfl
    · obtain ⟨hv1, hv2⟩ := sundayAfterInRange_bounds hv
      rw [List.filter_eq_nil_iff]
      intro e hee
      simp only [optEntry, List.mem_singleton] at hee
      subst hee
      simp only [decide_eq_true_eq, makeDate, daysBeforeYear] at hv2 ⊢
      norm_num at hv2 ⊢
      omega
  have hf1 : ([⟨makeDate (Y : Int) 12 31, "uudenvuodenaatto", "Uudenvuodenaatto", .feast⟩,
      ⟨makeDate ((Y : Int) + 1) 1 1, "uudenvuodenpaiva", "Uudenvuodenpäivä", .feast⟩] : List Entry).filter
      (fun e => decide (e.date = easterSunday (Y + 1) - 2)) = [] := by
    rw [List.filter_eq_nil_iff]
    intro e he
    fin_cases he <;>
      simp only [decide_eq_true_eq, addDays, nearestSunday, dayOfWeek, makeDate,
        daysBeforeYear] <;>
      norm_num <;>
      first
      | omega
      | (split_ifs <;> omega)
  have hi1 : ([⟨makeDate ((Y : Int) + 1) 1 6, "loppiainen", "Loppiainen", .feast⟩] : List Entry).filter
      (fun e => decide (e.date = easterSunday (Y + 1) - 2)) = [] := by
    rw [List.filter_eq_nil_iff]
    intro e he
    fin_cases he <;>
      simp only [decide_eq_true_eq, addDays, nearestSunday, dayOfWeek, makeDate,
        daysBeforeYear] <;>
      norm_num <;>
      first
      | omega
      | (split_ifs <;> omega)
  have hj : (epiphanyBlock Y).filter (fun e => decide (e.date = easterSunday (Y + 1) - 2)) = [] := by
    rw [List.filter_eq_nil_iff]
    intro e he
    have he2 : e ∈ epiphanySundayLoop 7
        (sundayOnOrAfter (addDays (makeDate ((Y : Int) + 1) 1 6) 1))
        (addDays (easterSunday (Y + 1)) (-63)) 1 := he
    have := epiphanySundayLoop_date_lt 7 _ _ _ e he2
    simp only [addDays] at this
    simp only [decide_eq_true_eq]
    omega
  have hk1 : ([⟨addDays (easterSunday (Y + 1)) (-63), "3-sunnuntai-ennen-paastonaikaa",
        "3. sunnuntai ennen paastonaikaa", .sunday⟩,
      ⟨addDays (easterSunday (Y + 1)) (-56), "2-sunnuntai-ennen-paastonaikaa",
        "2. sunnuntai ennen paastonaikaa", .sunday⟩,
      ⟨addDays (easterSunday (Y + 1)) (-49), "laskiaissunnuntai", "Laskiaissunnuntai", .sunday⟩,
      ⟨addDays (easterSunday (Y + 1)) (-46), "tuhkakeskiviikko", "Tuhkakeskiviikko", .weekday⟩] : List Entry).filter
      (fun e => decide (e.date = easterSunday (Y + 1) - 2)) = [] := by
    rw [List.filter_eq_nil_iff]
    intro e he
    fin_cases he <;>
      simp only [decide_eq_true_eq, addDays, nearestSunday, dayOfWeek, makeDate,
        daysBeforeYear] <;>
      norm_num <;>
      first
      | omega
      | (split_ifs <;> omega)
  have hl1 : ((List.range 5).map (fun (i : Nat) =>
      (⟨addDays (easterSunday (Y + 1)) (-49 + 7 * ((i : Int) + 1)), s!"{i + 1}-paastonajan-sunnuntai",
        s!"{i + 1}. paastonajan sunnuntai", .sunday⟩ : Entry))).filter
      (fun e => decide (e.date = easterSunday (Y + 1) - 2)) = [] := by
    rw [List.filter_eq_nil_iff]
    intro e he
    simp only [List.mem_map, List.mem_range] at he
    obtain ⟨k, hk, rfl⟩ := he
    simp only [decide_eq_true_eq, addDays]
    omega
  have hn1 : ((List.range 6).map (fun (i : Nat) =>
      (⟨addDays (easterSunday (Y + 1)) (((i : Int) + 1) * 7), s!"{i + 1}-sunnuntai-paasiaisesta",
        s!"{i + 1}. sunnuntai pääsiäisestä", .sunday⟩ : Entry))).filter
      (fun e => decide (e.date = easterSunday (Y + 1) - 2)) = [] := by
    rw [List.filter_eq_nil_iff]
    intro e he
    simp only [List.mem_map, List.mem_range] at he
    obtain ⟨k, hk, rfl⟩ := he
    simp only [decide_eq_true_eq, addDays]
    omega
  have ho1 : ([⟨addDays (easterSunday (Y + 1)) 39, "helatorstai", "Helatorstai", .feast⟩,
      ⟨addDays (addDays (easterSunday (Y + 1)) 49) (-1), "helluntaiaatto", "Helluntaiaatto", .service⟩,
      ⟨addDays (easterSunday (Y + 1)) 49, "helluntaipaiva", "Helluntaipäivä", .feast⟩] : List Entry).filter
      (fun e => decide (e.date = easterSunday (Y + 1) - 2)) = [] := by
    rw [List.filter_eq_nil_iff]
    intro e he
    fin_cases he <;>
      simp only [decide_eq_true_eq, addDays, nearestSunday, dayOfWeek, makeDate,
        daysBeforeYear] <;>
      norm_num <;>
      first
      | omega
      | (split_ifs <;> omega)
  have hp1 : (addWeekdays (addDays (easterSunday (Y + 1)) 49)
      "helluntain-jalkeinen-viikko-eli-helluntaiviikko" "Helluntain jälkeinen viikko").filter
      (fun e => decide (e.date = easterSunday (Y + 1) - 2)) = [] := by
    rw [List.filter_eq_nil_iff]
    intro e he
    simp only [addWeekdays, List.mem_map, List.mem_range] at he
    obtain ⟨k, hk, rfl⟩ := he
    simp only [decide_eq_true_eq, addDays]
    omega
  have hq1 : ([⟨addDays (addDays (easterSunday (Y + 1)) 49) 7, "pyhan-kolminaisuuden-paiva",
      "Pyhän Kolminaisuuden päivä", .sunday⟩] : List Entry).filter
      (fun e => decide (e.date = easterSunday (Y + 1) - 2)) = [] := by
    rw [List.filter_eq_nil_iff]
    intro e he
    fin_cases he <;>
      simp only [decide_eq_true_eq, addDays, nearestSunday, dayOfWeek, makeDate,
        daysBeforeYear] <;>
      norm_num <;>
      first
      | omega
      | (split_ifs <;> omega)
  have hr1 : (pentecostBlock Y).filter (fun e => decide (e.date = easterSunday (Y + 1) - 2)) = [] := by
    rw [List.filter_eq_nil_iff]
    intro e he
    have he2 : e ∈ pentecostSundayEntries (pentecostSundayLoop 60
        (addDays (addDays (easterSunday (Y + 1)) 49) 14)
        (addDays (nearestSunday (makeDate ((Y : Int) + 1) 11 30)) (-7)) 2) := he
    unfold pentecostSundayEntries at he2
    obtain ⟨ip, hip, rfl⟩ := List.mem_map.mp he2
    rw [List.enum_eq_zip_range] at hip
    have h2 := (List.of_mem_zip hip).2
    have h3 := pentecostSundayLoop_fst_ge 60 _ _ _ _ h2
    simp only [decide_eq_true_eq, pentecostSundayEntry_date]
    simp only [addDays] at h3
    omega
  have hs1 : ([⟨makeDate ((Y : Int) + 1) 2 2, "kynttilanpaiva", "Kynttilänpäivä", .special⟩] : List Entry).filter
      (fun e => decide (e.date = easterSunday (Y + 1) - 2)) = [] := by
    rw [List.filter_eq_nil_iff]
    intro e he
    fin_cases he <;>
      simp only [decide_eq_true_eq, addDays, nearestSunday, dayOfWeek, makeDate,
        daysBeforeYear] <;>
      norm_num <;>
      first
      | omega
      | (split_ifs <;> omega)
  have ht1 : (if makeDate ((Y : Int) + 1) 3 25 < addDays (easterSunday (Y + 1)) (-6)
        ∨ addDays (easterSunday (Y + 1)) 7 < makeDate ((Y : Int) + 1) 3 25 then
      [(⟨makeDate ((Y : Int) + 1) 3 25, "marian-ilmestyspaiva", "Marian ilmestyspäivä",
        .special⟩ : Entry)] else []).filter (fun e => decide (e.date = easterSunday (Y + 1) - 2)) = [] := by
    split_ifs with hcond
    · rw [List.filter_eq_nil_iff]
      intro e hee
      simp only [List.mem_singleton] at hee
      subst hee
      simp only [decide_eq_true_eq, addDays] at hcond ⊢
      omega
    · rfl
  have hu1 : (if makeDate ((Y : Int) + 1) 6 20 ≤ saturdayOnOrBefore (makeDate ((Y : Int) + 1) 6 26) then
      [(⟨saturdayOnOrBefore (makeDate ((Y : Int) + 1) 6 26), "juhannuspaiva", "Juhannuspäivä",
        .special⟩ : Entry)] else []).filter (fun e => decide (e.date = easterSunday (Y + 1) - 2)) = [] := by
    split_ifs with hcond
    · rw [List.filter_eq_nil_iff]
      intro e hee
      simp only [List.mem_singleton] at hee
      subst hee
      simp only [decide_eq_true_eq, makeDate, daysBeforeYear] at hcond ⊢
      norm_num at hcond ⊢
      omega
    · rfl
  have hv1 : (if sundayOnOrAfter (makeDate ((Y : Int) + 1) 9 29) ≤ makeDate ((Y : Int) + 1) 10 5 then
      [(⟨sundayOnOrAfter (makeDate ((Y : Int) + 1) 9 29), "mikkelinpaiva", "Mikkelinpäivä",
        .special⟩ : Entry)] else []).filter (fun e => decide (e.date = easterSunday (Y + 1) - 2)) = [] := by
    split_ifs with hcond
    · rw [List.filter_eq_nil_iff]
      intro e hee
      simp only [List.mem_singleton] at hee
      subst hee
      have hge := sundayOnOrAfter_ge (makeDate ((Y : Int) + 1) 9 29)
      simp only [decide_eq_true_eq, makeDate, daysBeforeYear] at hge ⊢
      norm_num at hge ⊢
      omega
    · rfl
  have hw1 : (if makeDate ((Y : Int) + 1) 10 31 ≤ saturdayOnOrBefore (makeDate ((Y : Int) + 1) 11 6) then
      [(⟨saturdayOnOrBefore (makeDate ((Y : Int) + 1) 11 6), "pyhainpaiva", "Pyhäinpäivä",
        .special⟩ : Entry)] else []).filter (fun e => decide (e.date = easterSunday (Y + 1) - 2)) = [] := by
    split_ifs with hcond
    · rw [List.filter_eq_nil_iff]
      intro e hee
      simp only [List.mem_singleton] at hee
      subst hee
      simp only [decide_eq_true_eq, makeDate, daysBeforeYear] at hcond ⊢
      norm_num at hcond ⊢
      omega
    · rfl
  have hx1 : ([⟨makeDate ((Y : Int) + 1) 1 19, "pyhan-henrikin-muistopaiva", "Pyhän Henrikin muistopäivä", .special⟩,
      ⟨makeDate ((Y : Int) + 1) 12 6, "itsenaisyyspaiva", "Itsenäisyyspäivä", .special⟩,
      ⟨makeDate ((Y : Int) + 1) 1 18, "kansalliset-rukouspaivat", "Kristittyjen ykseyden rukouspäivä", .special⟩,
      ⟨makeDate ((Y : Int) + 1) 10 24, "kansalliset-rukouspaivat",
        "Rauhan, ihmisoikeuksien ja kansainvälisen vastuun rukouspäivä", .special⟩] : List Entry).filter
      (fun e => decide (e.date = easterSunday (Y + 1) - 2)) = [] := by
    rw [List.filter_eq_nil_iff]
    intro e he
    fin_cases he <;>
      simp only [decide_eq_true_eq, addDays, nearestSunday, dayOfWeek, makeDate,
        daysBeforeYear] <;>
      norm_num <;>
      first
      | omega
      | (split_ifs <;> omega)
  have f0 : decide (addDays (easterSunday (Y + 1)) (-7) = easterSunday (Y + 1) - 2) = false := by
    simp only [decide_eq_false_iff_not, addDays]
    omega
  have f1 : decide (addDays (easterSunday (Y + 1)) (-6) = easterSunday (Y + 1) - 2) = false := by
    simp only [decide_eq_false_iff_not, addDays]
    omega
  have f2 : decide (addDays (easterSunday (Y + 1)) (-5) = easterSunday (Y + 1) - 2) = false := by
    simp only [decide_eq_false_iff_not, addDays]
    omega
  have f3 : decide (addDays (easterSunday (Y + 1)) (-4) = easterSunday (Y + 1) - 2) = false := by
    simp only [decide_eq_false_iff_not, addDays]
    omega
  have f4 : decide (addDays (easterSunday (Y + 1)) (-3) = easterSunday (Y + 1) - 2) = false := by
    simp only [decide_eq_false_iff_not, addDays]
    omega
  have f5 : decide (addDays (easterSunday (Y + 1)) (-1) = easterSunday (Y + 1) - 2) = false := by
    simp only [decide_eq_false_iff_not, addDays]
    omega
  have f6 : decide (addDays (easterSunday (Y + 1)) 1 = easterSunday (Y + 1) - 2) = false := by
    simp only [decide_eq_false_iff_not, addDays]
    omega
  have f7 : decide (addDays (easterSunday (Y + 1)) 2 = easterSunday (Y + 1) - 2) = false := by
    simp only [decide_eq_false_iff_not, addDays]
    omega
  have f8 : decide (addDays (easterSunday (Y + 1)) 3 = easterSunday (Y + 1) - 2) = false := by
    simp only [decide_eq_false_iff_not, addDays]
    omega
  have f9 : decide (addDays (easterSunday (Y + 1)) 4 = easterSunday (Y + 1) - 2) = false := by
    simp only [decide_eq_false_iff_not, addDays]
    omega
  have f10 : decide (addDays (easterSunday (Y + 1)) 5 = easterSunday (Y + 1) - 2) = false := by
    simp only [decide_eq_false_iff_not, addDays]
    omega
  have f11 : decide (addDays (easterSunday (Y + 1)) 6 = easterSunday (Y + 1) - 2) = false := by
    simp only [decide_eq_false_iff_not, addDays]
    omega
  have f12 : decide (easterSunday (Y + 1) = easterSunday (Y + 1) - 2) = false := by
    simp only [decide_eq_false_iff_not]
    omega
  have tT : decide (addDays (easterSunday (Y + 1)) (-2) = easterSunday (Y + 1) - 2) = true := by
    simp only [decide_eq_true_eq, addDays]
    omega
  have hm1 : ([⟨addDays (easterSunday (Y + 1)) (-7), "palmusunnuntai", "Palmusunnuntai", .sunday⟩,
      ⟨addDays (easterSunday (Y + 1)) (-6), "hiljaisen-viikon-maanantai", "Hiljaisen viikon maanantai", .weekday⟩,
      ⟨addDays (easterSunday (Y + 1)) (-5), "hiljaisen-viikon-tiistai", "Hiljaisen viikon tiistai", .weekday⟩,
      ⟨addDays (easterSunday (Y + 1)) (-4), "hiljaisen-viikon-keskiviikko", "Hiljaisen viikon keskiviikko", .weekday⟩,
      ⟨addDays (easterSunday (Y + 1)) (-3), "kiirastorstai", "Kiirastorstai", .feast⟩,
      ⟨addDays (easterSunday (Y + 1)) (-2), "pitkaperjantai", "Pitkäperjantai", .feast⟩,
      ⟨addDays (easterSunday (Y + 1)) (-2), "jeesuksen-kuolinhetki", "Jeesuksen kuolinhetki", .service⟩,
      ⟨addDays (easterSunday (Y + 1)) (-2), "pitkaperjantain-ilta", "Pitkäperjantain ilta", .service⟩,
      ⟨addDays (easterSunday (Y + 1)) (-1), "hiljainen-lauantai", "Hiljainen lauantai", .weekday⟩,
      ⟨addDays (easterSunday (Y + 1)) (-1), "paasiaisyo", "Pääsiäisyö", .service⟩,
      ⟨easterSunday (Y + 1), "paasiaispaiva", "Pääsiäispäivä", .feast⟩,
      ⟨addDays (easterSunday (Y + 1)) 1, "2-paasiaispaiva", "2. pääsiäispäivä", .feast⟩,
      ⟨addDays (easterSunday (Y + 1)) 2, "paasiaisen-jalkeinen-tiistai", "Pääsiäisen jälkeinen tiistai", .weekday⟩,
      ⟨addDays (easterSunday (Y + 1)) 3, "paasiaisen-jalkeinen-keskiviikko", "Pääsiäisen jälkeinen keskiviikko", .weekday⟩,
      ⟨addDays (easterSunday (Y + 1)) 4, "paasiaisen-jalkeinen-torstai", "Pääsiäisen jälkeinen torstai", .weekday⟩,
      ⟨addDays (easterSunday (Y + 1)) 5, "paasiaisen-jalkeinen-perjantai", "Pääsiäisen jälkeinen perjantai", .weekday⟩,
      ⟨addDays (easterSunday (Y + 1)) 6, "paasiaisen-jalkeinen-lauantai", "Pääsiäisen jälkeinen lauantai",
        .weekday⟩] : List Entry).filter (fun e => decide (e.date = easterSunday (Y + 1) - 2)) =
      [⟨easterSunday (Y + 1) - 2, "pitkaperjantai", "Pitkäperjantai", .feast⟩,
       ⟨easterSunday (Y + 1) - 2, "jeesuksen-kuolinhetki", "Jeesuksen kuolinhetki", .service⟩,
       ⟨easterSunday (Y + 1) - 2, "pitkaperjantain-ilta", "Pitkäperjantain ilta", .service⟩] := by
    simp only [List.filter_cons, List.filter_nil, f0, f1, f2, f3, f4, f5, f6, f7, f8, f9,
      f10, f11, f12, tT, if_true, if_false, Bool.false_eq_true]
    rw [show addDays (easterSunday (Y + 1)) (-2) = easterSunday (Y + 1) - 2 from by
      simp only [addDays]; omega]
  unfold rawChurchYear
  simp only [List.filter_append]
  rw [hb, hc, hd, he1, hf1, hg1, hi1, hj, hk1, hl1, hm1, hn1, ho1, hp1, hq1, hr1, hs1, ht1,
    hu1, hv1, hw1, hx1]
  simp


/-- Claim C1: on a date with more than one calendar entry, `resolveDate`
returns as `holyDay` the head of the stable priority sort of the
generation-order match list and the remaining entries, in that order, as
`additionalServices`; the sort is by type priority
feast < special < sunday < weekday < service, is a permutation of the
matches, and preserves generation order inside every priority class.
For Good Friday (the date Easter − 2 of the governing church year) the
matches are exactly the feast entry `pitkaperjantai` followed by the two
service entries, so the feast entry is the `holyDay` and the two service
entries are the `additionalServices`. -/
theorem C1_priority_resolution (y : Nat) (m d : Int)
    (hy : 1 ≤ y) (hm1 : 1 ≤ m) (hm2 : m ≤ 12) (hd1 : 1 ≤ d) (hd2 : d ≤ 31)
    (hmulti : 1 < (matchesOn y m d).length) :
    ((generateChurchYear (getChurchYearStart y m d)).filter
        (fun e => decide (e.date = makeDate y m d)) = matchesOn y m d)
    ∧ (resolveDate y m d).holyDay =
        some (enrichEntry (prioritizeEntries (matchesOn y m d)).headI)
    ∧ (resolveDate y m d).additionalServices =
        some ((prioritizeEntries (matchesOn y m d)).tail.map enrichEntry)
    ∧ List.Sorted byPriority (prioritizeEntries (matchesOn y m d))
    ∧ List.Perm (prioritizeEntries (matchesOn y m d)) (matchesOn y m d)
    ∧ (∀ q : Nat, (prioritizeEntries (matchesOn y m d)).filter
          (fun e => decide (priorityOf e.type = q)) =
        (matchesOn y m d).filter (fun e => decide (priorityOf e.type = q)))
    ∧ (∀ e ∈ matchesOn y m d,
        priorityOf ((prioritizeEntries (matchesOn y m d)).headI).type ≤ priorityOf e.type)
    ∧ (∀ Y : Nat, getChurchYearStart y m d = Y →
        makeDate y m d = easterSunday (Y + 1) - 2 →
        matchesOn y m d =
          [⟨easterSunday (Y + 1) - 2, "pitkaperjantai", "Pitkäperjantai", .feast⟩,
           ⟨easterSunday (Y + 1) - 2, "jeesuksen-kuolinhetki", "Jeesuksen kuolinhetki", .service⟩,
           ⟨easterSunday (Y + 1) - 2, "pitkaperjantain-ilta", "Pitkäperjantain ilta", .service⟩]
        ∧ (resolveDate y m d).holyDay =
            some ⟨"Pitkäperjantai", "pitkaperjantai", easterSunday (Y + 1) - 2, .feast⟩
        ∧ (resolveDate y m d).additionalServices =
            some [⟨"Jeesuksen kuolinhetki", "jeesuksen-kuolinhetki",
                    easterSunday (Y + 1) - 2, .service⟩,
                  ⟨"Pitkäperjantain ilta", "pitkaperjantain-ilta",
                    easterSunday (Y + 1) - 2, .service⟩]) := by
  have hne : matchesOn y m d ≠ [] := by
    intro hnil
    rw [hnil] at hmulti
    simp at hmulti
  obtain ⟨hH, hA, _⟩ := resolveDate_nonempty_fields y m d hne
  have hperm : List.Perm (prioritizeEntries (matchesOn y m d)) (matchesOn y m d) :=
    List.perm_insertionSort byPriority (matchesOn y m d)
  refine ⟨matchList_eq_matchesOn y m d, hH, hA,
    List.sorted_insertionSort byPriority (matchesOn y m d), hperm,
    fun q => filter_prioritizeEntries (matchesOn y m d) q, ?_, ?_⟩
  · intro e he
    have hes : e ∈ prioritizeEntries (matchesOn y m d) := hperm.mem_iff.mpr he
    have hsorted : List.Sorted byPriority (prioritizeEntries (matchesOn y m d)) :=
      List.sorted_insertionSort byPriority (matchesOn y m d)
    cases hp : prioritizeEntries (matchesOn y m d) with
    | nil =>
      rw [hp] at hes
      cases hes
    | cons a t =>
      rw [hp] at hes hsorted
      simp only [List.headI]
      rcases List.mem_cons.mp hes with rfl | hmem
      · exact le_refl _
      · exact List.rel_of_sorted_cons hsorted e hmem
  · intro Y hgc heq
    have hM : matchesOn y m d =
        [⟨easterSunday (Y + 1) - 2, "pitkaperjantai", "Pitkäperjantai", .feast⟩,
         ⟨easterSunday (Y + 1) - 2, "jeesuksen-kuolinhetki", "Jeesuksen kuolinhetki", .service⟩,
         ⟨easterSunday (Y + 1) - 2, "pitkaperjantain-ilta", "Pitkäperjantain ilta", .service⟩] := by
      unfold matchesOn
      rw [hgc, heq]
      exact rawFilter_goodFriday Y
    refine ⟨hM, ?_, ?_⟩
    · rw [hH, hM]
      rfl
    · rw [hA, hM]
      rfl

/-- Witness for `C1_priority_resolution` at Good Friday 2026
(2026-04-03, church year 2025–2026). -/
theorem C1_witness :
    (1 ≤ 2026 ∧ (1 : Int) ≤ 4 ∧ (4 : Int) ≤ 12 ∧ (1 : Int) ≤ 3 ∧ (3 : Int) ≤ 31
      ∧ 1 < (matchesOn 2026 4 3).length
      ∧ getChurchYearStart 2026 4 3 = 2025
      ∧ makeDate 2026 4 3 = easterSunday 2026 - 2)
    ∧ (resolveDate 2026 4 3).holyDay =
        some ⟨"Pitkäperjantai", "pitkaperjantai", easterSunday 2026 - 2, .feast⟩ := by
  refine ⟨⟨by decide, by decide, by decide, by decide, by decide, by decide, by decide,
    by decide⟩, ?_⟩
  exact (((C1_priority_resolution 2026 4 3 (by decide) (by decide) (by decide) (by decide)
    (by decide) (by decide)).2.2.2.2.2.2.2 2025 (by decide) (by decide)).2.1)


end AnnoApi
